import Mathlib

/-
Verification development for the StereoKit spatial-math kernel
(src/StereoKitC/stereokit.h) and the default-resource initializer
(src/StereoKitC/systems/defaults.cpp).

Modelling conventions:
* The C `float` scalar is modelled as the exact rationals `ℚ`; float
  rounding is out of scope, the algebra of the kernel is verified over
  exact arithmetic.
* `sqrtf` has no exact rational counterpart, so every definition that
  calls it takes the square-root function as an explicit parameter
  `sqrtf : ℚ → ℚ`; theorems about such definitions quantify over it.
* A second, tiny scalar model `fp` (exact rationals plus one `nonfinite`
  class standing for IEEE NaN/Inf) is used where a claim is about the
  production of non-finite values (division by a zero magnitude).
* Functions that are only declared in stereokit.h (their .cpp bodies are
  not part of this tree) are modelled from the specification text; each
  such definition carries a doc comment starting `Modelled from the
  spec:`.
-/

namespace SK

/-- struct vec2 of stereokit.h: two floats x, y. -/
structure vec2 where
  x : ℚ
  y : ℚ
deriving DecidableEq, Repr

/-- struct vec3 of stereokit.h: three floats x, y, z. -/
structure vec3 where
  x : ℚ
  y : ℚ
  z : ℚ
deriving DecidableEq, Repr

/-- struct vec4 of stereokit.h: four floats x, y, z, w. -/
structure vec4 where
  x : ℚ
  y : ℚ
  z : ℚ
  w : ℚ
deriving DecidableEq, Repr

/-- struct quat of stereokit.h: four floats i, j, k, a. -/
structure quat where
  i : ℚ
  j : ℚ
  k : ℚ
  a : ℚ
deriving DecidableEq, Repr

/-- struct matrix of stereokit.h: four vec4 rows (row-major). -/
structure matrix where
  row0 : vec4
  row1 : vec4
  row2 : vec4
  row3 : vec4
deriving DecidableEq, Repr

/-- struct ray_t of stereokit.h: position and direction. -/
structure ray_t where
  pos : vec3
  dir : vec3
deriving DecidableEq, Repr

/- vec2 operators (stereokit.h lines 87-92). -/

instance : HMul vec2 ℚ vec2 := ⟨fun a b => ⟨a.x * b, a.y * b⟩⟩
instance : HDiv vec2 ℚ vec2 := ⟨fun a b => ⟨a.x / b, a.y / b⟩⟩
instance : Add vec2 := ⟨fun a b => ⟨a.x + b.x, a.y + b.y⟩⟩
instance : Sub vec2 := ⟨fun a b => ⟨a.x - b.x, a.y - b.y⟩⟩
instance : Mul vec2 := ⟨fun a b => ⟨a.x * b.x, a.y * b.y⟩⟩
instance : Div vec2 := ⟨fun a b => ⟨a.x / b.x, a.y / b.y⟩⟩

/- vec2 compound assignments (stereokit.h lines 93-96); the mutation of
the left operand is modelled by returning its updated value. -/

/-- operator+= for vec2: a.x += b.x; a.y += b.y; return a. -/
def vec2_add_assign (a b : vec2) : vec2 := ⟨a.x + b.x, a.y + b.y⟩

/-- operator-= for vec2: a.x -= b.x; a.y -= b.y; return a. -/
def vec2_sub_assign (a b : vec2) : vec2 := ⟨a.x - b.x, a.y - b.y⟩

/-- operator*= for vec2 and a float: a.x *= b; a.y *= b; return a. -/
def vec2_mul_assign (a : vec2) (b : ℚ) : vec2 := ⟨a.x * b, a.y * b⟩

/-- operator/= for vec2 and a float: a.x /= b; a.y /= b; return a. -/
def vec2_div_assign (a : vec2) (b : ℚ) : vec2 := ⟨a.x / b, a.y / b⟩

/- vec3 operators (stereokit.h lines 98-104). -/

instance : HMul vec3 ℚ vec3 := ⟨fun a b => ⟨a.x * b, a.y * b, a.z * b⟩⟩
instance : HDiv vec3 ℚ vec3 := ⟨fun a b => ⟨a.x / b, a.y / b, a.z / b⟩⟩
instance : Add vec3 := ⟨fun a b => ⟨a.x + b.x, a.y + b.y, a.z + b.z⟩⟩
instance : Sub vec3 := ⟨fun a b => ⟨a.x - b.x, a.y - b.y, a.z - b.z⟩⟩
instance : Neg vec3 := ⟨fun a => ⟨-a.x, -a.y, -a.z⟩⟩
instance : Mul vec3 := ⟨fun a b => ⟨a.x * b.x, a.y * b.y, a.z * b.z⟩⟩
instance : Div vec3 := ⟨fun a b => ⟨a.x / b.x, a.y / b.y, a.z / b.z⟩⟩

/- vec3 compound assignments (stereokit.h lines 105-108). -/

/-- operator+= for vec3: componentwise add into a; return a. -/
def vec3_add_assign (a b : vec3) : vec3 := ⟨a.x + b.x, a.y + b.y, a.z + b.z⟩

/-- operator-= for vec3: componentwise subtract from a; return a. -/
def vec3_sub_assign (a b : vec3) : vec3 := ⟨a.x - b.x, a.y - b.y, a.z - b.z⟩

/-- operator*= for vec3 and a float: scale each component of a; return a. -/
def vec3_mul_assign (a : vec3) (b : ℚ) : vec3 := ⟨a.x * b, a.y * b, a.z * b⟩

/-- operator/= for vec3 and a float: divide each component of a; return a. -/
def vec3_div_assign (a : vec3) (b : ℚ) : vec3 := ⟨a.x / b, a.y / b, a.z / b⟩

/-- vec3_magnitude_sq (stereokit.h line 110): a.x*a.x + a.y*a.y + a.z*a.z. -/
def vec3_magnitude_sq (a : vec3) : ℚ := a.x * a.x + a.y * a.y + a.z * a.z

/-- vec3_magnitude (stereokit.h line 111): sqrtf(a.x*a.x + a.y*a.y + a.z*a.z);
`sqrtf` is a parameter, see the header comment. -/
def vec3_magnitude (sqrtf : ℚ → ℚ) (a : vec3) : ℚ :=
  sqrtf (a.x * a.x + a.y * a.y + a.z * a.z)

/-- vec3_normalize (stereokit.h line 112): a / vec3_magnitude(a); an
unconditional componentwise division, with no zero-magnitude guard. -/
def vec3_normalize (sqrtf : ℚ → ℚ) (a : vec3) : vec3 :=
  a / vec3_magnitude sqrtf a

/-- vec3_lerp (stereokit.h line 113): a + (b - a)*t. -/
def vec3_lerp (a b : vec3) (t : ℚ) : vec3 := a + (b - a) * t

/-- vec3_dot (stereokit.h line 114): a.x*b.x + a.y*b.y + a.z*b.z. -/
def vec3_dot (a b : vec3) : ℚ := a.x * b.x + a.y * b.y + a.z * b.z

/-- vec2_lerp (stereokit.h line 116): a + (b - a)*t. -/
def vec2_lerp (a b : vec2) (t : ℚ) : vec2 := a + (b - a) * t

/- Constants (stereokit.h lines 149-155). -/

/-- vec3_one constant. -/
def vec3_one : vec3 := ⟨1, 1, 1⟩

/-- vec3_zero constant. -/
def vec3_zero : vec3 := ⟨0, 0, 0⟩

/-- vec3_up constant. -/
def vec3_up : vec3 := ⟨0, 1, 0⟩

/-- vec3_forward constant. -/
def vec3_forward : vec3 := ⟨0, 0, -1⟩

/-- vec3_right constant. -/
def vec3_right : vec3 := ⟨1, 0, 0⟩

/-- quat_identity constant. -/
def quat_identity : quat := ⟨0, 0, 0, 1⟩

/-- matrix_identity constant. -/
def matrix_identity : matrix :=
  ⟨⟨1, 0, 0, 0⟩, ⟨0, 1, 0, 0⟩, ⟨0, 0, 1, 0⟩, ⟨0, 0, 0, 1⟩⟩

/- Matrix algebra. stereokit.h only declares matrix_mul, matrix_mul_point,
matrix_mul_direction, matrix_trs and matrix_inverse (lines 129-134); their
bodies are not in this tree, so they are modelled from spec section 4.3.
Convention fixed here (spec leaves it open as long as it is consistent):
row-major matrix, points are row vectors multiplied on the left of the
matrix, translation in row 3. -/

/-- Determinant of a 3x3 matrix given row by row. Helper for det4 and
matrix_inverse. -/
def det3 (a b c d e f g h i : ℚ) : ℚ :=
  a * (e * i - f * h) - b * (d * i - f * g) + c * (d * h - e * g)

/-- Determinant of a 4x4 matrix, cofactor expansion along row 0. Helper
for matrix_inverse. -/
def det4 (M : matrix) : ℚ :=
  M.row0.x * det3 M.row1.y M.row1.z M.row1.w
                  M.row2.y M.row2.z M.row2.w
                  M.row3.y M.row3.z M.row3.w
  - M.row0.y * det3 M.row1.x M.row1.z M.row1.w
                    M.row2.x M.row2.z M.row2.w
                    M.row3.x M.row3.z M.row3.w
  + M.row0.z * det3 M.row1.x M.row1.y M.row1.w
                    M.row2.x M.row2.y M.row2.w
                    M.row3.x M.row3.y M.row3.w
  - M.row0.w * det3 M.row1.x M.row1.y M.row1.z
                    M.row2.x M.row2.y M.row2.z
                    M.row3.x M.row3.y M.row3.z

/-- Modelled from the spec: matrix_mul (stereokit.h line 130 declaration;
spec 4.3 "4x4 matrix product"). Entry (r,c) of a*b is the dot product of
row r of a with column c of b. -/
def matrix_mul (a b : matrix) : matrix :=
  ⟨⟨a.row0.x * b.row0.x + a.row0.y * b.row1.x + a.row0.z * b.row2.x + a.row0.w * b.row3.x,
    a.row0.x * b.row0.y + a.row0.y * b.row1.y + a.row0.z * b.row2.y + a.row0.w * b.row3.y,
    a.row0.x * b.row0.z + a.row0.y * b.row1.z + a.row0.z * b.row2.z + a.row0.w * b.row3.z,
    a.row0.x * b.row0.w + a.row0.y * b.row1.w + a.row0.z * b.row2.w + a.row0.w * b.row3.w⟩,
   ⟨a.row1.x * b.row0.x + a.row1.y * b.row1.x + a.row1.z * b.row2.x + a.row1.w * b.row3.x,
    a.row1.x * b.row0.y + a.row1.y * b.row1.y + a.row1.z * b.row2.y + a.row1.w * b.row3.y,
    a.row1.x * b.row0.z + a.row1.y * b.row1.z + a.row1.z * b.row2.z + a.row1.w * b.row3.z,
    a.row1.x * b.row0.w + a.row1.y * b.row1.w + a.row1.z * b.row2.w + a.row1.w * b.row3.w⟩,
   ⟨a.row2.x * b.row0.x + a.row2.y * b.row1.x + a.row2.z * b.row2.x + a.row2.w * b.row3.x,
    a.row2.x * b.row0.y + a.row2.y * b.row1.y + a.row2.z * b.row2.y + a.row2.w * b.row3.y,
    a.row2.x * b.row0.z + a.row2.y * b.row1.z + a.row2.z * b.row2.z + a.row2.w * b.row3.z,
    a.row2.x * b.row0.w + a.row2.y * b.row1.w + a.row2.z * b.row2.w + a.row2.w * b.row3.w⟩,
   ⟨a.row3.x * b.row0.x + a.row3.y * b.row1.x + a.row3.z * b.row2.x + a.row3.w * b.row3.x,
    a.row3.x * b.row0.y + a.row3.y * b.row1.y + a.row3.z * b.row2.y + a.row3.w * b.row3.y,
    a.row3.x * b.row0.z + a.row3.y * b.row1.z + a.row3.z * b.row2.z + a.row3.w * b.row3.z,
    a.row3.x * b.row0.w + a.row3.y * b.row1.w + a.row3.z * b.row2.w + a.row3.w * b.row3.w⟩⟩

/-- Modelled from the spec: matrix_mul_point (stereokit.h line 131
declaration; spec 4.3 transformPoint): multiplies the homogeneous row
vector (p.x, p.y, p.z, 1) by m and returns the 3D point, dividing by the
resulting w only when w is not 1. -/
def matrix_mul_point (m : matrix) (p : vec3) : vec3 :=
  let x := p.x * m.row0.x + p.y * m.row1.x + p.z * m.row2.x + m.row3.x
  let y := p.x * m.row0.y + p.y * m.row1.y + p.z * m.row2.y + m.row3.y
  let z := p.x * m.row0.z + p.y * m.row1.z + p.z * m.row2.z + m.row3.z
  let w := p.x * m.row0.w + p.y * m.row1.w + p.z * m.row2.w + m.row3.w
  if w = 1 then ⟨x, y, z⟩ else ⟨x / w, y / w, z / w⟩

/-- Modelled from the spec: matrix_mul_direction (stereokit.h line 132
declaration; spec 4.3 transformDirection): same product with implicit
w = 0, ignoring the translation row. -/
def matrix_mul_direction (m : matrix) (d : vec3) : vec3 :=
  ⟨d.x * m.row0.x + d.y * m.row1.x + d.z * m.row2.x,
   d.x * m.row0.y + d.y * m.row1.y + d.z * m.row2.y,
   d.x * m.row0.z + d.y * m.row1.z + d.z * m.row2.z⟩

/-- Modelled from the spec: matrix_inverse (stereokit.h line 129
declaration; spec 4.3 "general 4x4 inverse"): the adjugate divided by the
determinant. The spec leaves the singular case unspecified; here a zero
determinant yields division by zero, which is 0 in ℚ. -/
def matrix_inverse (M : matrix) : matrix :=
  let m00 := M.row0.x; let m01 := M.row0.y; let m02 := M.row0.z; let m03 := M.row0.w
  let m10 := M.row1.x; let m11 := M.row1.y; let m12 := M.row1.z; let m13 := M.row1.w
  let m20 := M.row2.x; let m21 := M.row2.y; let m22 := M.row2.z; let m23 := M.row2.w
  let m30 := M.row3.x; let m31 := M.row3.y; let m32 := M.row3.z; let m33 := M.row3.w
  let d := det4 M
  let c00 :=   det3 m11 m12 m13 m21 m22 m23 m31 m32 m33
  let c01 := -(det3 m10 m12 m13 m20 m22 m23 m30 m32 m33)
  let c02 :=   det3 m10 m11 m13 m20 m21 m23 m30 m31 m33
  let c03 := -(det3 m10 m11 m12 m20 m21 m22 m30 m31 m32)
  let c10 := -(det3 m01 m02 m03 m21 m22 m23 m31 m32 m33)
  let c11 :=   det3 m00 m02 m03 m20 m22 m23 m30 m32 m33
  let c12 := -(det3 m00 m01 m03 m20 m21 m23 m30 m31 m33)
  let c13 :=   det3 m00 m01 m02 m20 m21 m22 m30 m31 m32
  let c20 :=   det3 m01 m02 m03 m11 m12 m13 m31 m32 m33
  let c21 := -(det3 m00 m02 m03 m10 m12 m13 m30 m32 m33)
  let c22 :=   det3 m00 m01 m03 m10 m11 m13 m30 m31 m33
  let c23 := -(det3 m00 m01 m02 m10 m11 m12 m30 m31 m32)
  let c30 := -(det3 m01 m02 m03 m11 m12 m13 m21 m22 m23)
  let c31 :=   det3 m00 m02 m03 m10 m12 m13 m20 m22 m23
  let c32 := -(det3 m00 m01 m03 m10 m11 m13 m20 m21 m23)
  let c33 :=   det3 m00 m01 m02 m10 m11 m12 m20 m21 m22
  ⟨⟨c00 / d, c10 / d, c20 / d, c30 / d⟩,
   ⟨c01 / d, c11 / d, c21 / d, c31 / d⟩,
   ⟨c02 / d, c12 / d, c22 / d, c32 / d⟩,
   ⟨c03 / d, c13 / d, c23 / d, c33 / d⟩⟩

/-- Modelled from the spec: matrix_trs (stereokit.h line 133 declaration;
spec 4.3 trs): the affine matrix applying scale first, then the rotation
of the quaternion, then translation, under the row-vector convention.
The rotation block is the standard rotation matrix of a unit quaternion;
spec 9 leaves the exact handedness/axis convention open, this one is used
consistently throughout the file. -/
def matrix_trs (position : vec3) (orientation : quat) (scale : vec3) : matrix :=
  let i := orientation.i
  let j := orientation.j
  let k := orientation.k
  let a := orientation.a
  ⟨⟨scale.x * (1 - 2 * (j * j + k * k)),
    scale.x * (2 * (i * j + k * a)),
    scale.x * (2 * (i * k - j * a)), 0⟩,
   ⟨scale.y * (2 * (i * j - k * a)),
    scale.y * (1 - 2 * (i * i + k * k)),
    scale.y * (2 * (j * k + i * a)), 0⟩,
   ⟨scale.z * (2 * (i * k + j * a)),
    scale.z * (2 * (j * k - i * a)),
    scale.z * (1 - 2 * (i * i + j * j)), 0⟩,
   ⟨position.x, position.y, position.z, 1⟩⟩

/-- Modelled from the spec: the magnitude of a quaternion (spec section 3,
"invariant expected by all consumers: magnitude = 1"): the square root of
the sum of squared components; `sqrtf` is a parameter as for vectors. -/
def quat_magnitude (sqrtf : ℚ → ℚ) (q : quat) : ℚ :=
  sqrtf (q.i * q.i + q.j * q.j + q.k * q.k + q.a * q.a)

/-- Modelled from the spec: ray_intersect_plane (stereokit.h line 136
declaration; spec 4.5): denom = dot(ray.dir, plane_normal); if denom is
zero (the exact-arithmetic reading of the spec's "denom = 0" parallel
test) the intersection fails and t is unspecified (0 here); otherwise it
succeeds with t = dot(plane_pt - ray.pos, plane_normal) / denom, with no
restriction on the sign of t. -/
def ray_intersect_plane (ray : ray_t) (plane_pt plane_normal : vec3) :
    Bool × ℚ :=
  let denom := vec3_dot ray.dir plane_normal
  if denom = 0 then (false, 0)
  else (true, vec3_dot (plane_pt - ray.pos) plane_normal / denom)

/- Float-tracking scalar model for claims about NaN/Inf production.
`fp` abstracts an IEEE binary32 value as either an exact finite rational
or `nonfinite`, one class covering NaN and the infinities. Finite
arithmetic is exact (rounding out of scope); any operation on a
nonfinite operand is nonfinite, and dividing by a zero denominator is
nonfinite (IEEE: 0/0 is NaN, x/0 is an infinity). -/
inductive fp where
  | num (q : ℚ)
  | nonfinite
deriving DecidableEq, Repr

/-- fp addition: exact on finite operands, nonfinite otherwise. -/
def fp.add : fp → fp → fp
  | num a, num b => num (a + b)
  | _, _ => nonfinite

/-- fp multiplication: exact on finite operands, nonfinite otherwise. -/
def fp.mul : fp → fp → fp
  | num a, num b => num (a * b)
  | _, _ => nonfinite

/-- fp division: nonfinite when the denominator is zero or either operand
is nonfinite, exact otherwise. -/
def fp.div : fp → fp → fp
  | num a, num b => if b = 0 then nonfinite else num (a / b)
  | _, _ => nonfinite

instance : Add fp := ⟨fp.add⟩
instance : Mul fp := ⟨fp.mul⟩
instance : Div fp := ⟨fp.div⟩

/-- vec3 over the float-tracking scalars. -/
structure vec3f where
  x : fp
  y : fp
  z : fp
deriving DecidableEq, Repr

/-- operator/ of vec3 by a float (stereokit.h line 99), over the
float-tracking scalars: componentwise division. -/
def vec3f_div_scalar (a : vec3f) (b : fp) : vec3f := ⟨a.x / b, a.y / b, a.z / b⟩

/-- vec3_magnitude (stereokit.h line 111) over the float-tracking
scalars: sqrtf(a.x*a.x + a.y*a.y + a.z*a.z), sqrtf a parameter. -/
def vec3f_magnitude (sqrtf : fp → fp) (a : vec3f) : fp :=
  sqrtf (a.x * a.x + a.y * a.y + a.z * a.z)

/-- vec3_normalize (stereokit.h line 112) over the float-tracking
scalars: a / vec3_magnitude(a), with no zero-magnitude guard. -/
def vec3f_normalize (sqrtf : fp → fp) (a : vec3f) : vec3f :=
  vec3f_div_scalar a (vec3f_magnitude sqrtf a)

/- The transform_t cached-transform type (stereokit.h lines 304-311) and
its operations (lines 313-330). Only the struct and the declarations are
in this tree; the operation bodies are modelled from spec sections 3
("CachedTransform") and 4.4, with the mutation of the `transform_t &`
argument modelled by returning the updated value (paired with the result
where the operation also returns one). -/

/-- struct transform_t of stereokit.h: position, scale, rotation, the
dirty flag and the cached world matrix. -/
structure transform_t where
  _position : vec3
  _scale : vec3
  _rotation : quat
  _dirty : Bool
  _transform : matrix
deriving DecidableEq, Repr

/-- Modelled from the spec: transform_initialize (spec section 3
lifecycle: "an explicit initialize call that sets identity defaults and
dirty=true"). -/
def transform_initialize : transform_t :=
  { _position := vec3_zero
    _scale := vec3_one
    _rotation := quat_identity
    _dirty := true
    _transform := matrix_identity }

/-- Modelled from the spec: transform_set (spec 4.4 setters: update the
fields and set dirty=true). -/
def transform_set (t : transform_t) (position scale : vec3) (r : quat) :
    transform_t :=
  { t with _position := position, _scale := scale, _rotation := r, _dirty := true }

/-- Modelled from the spec: transform_set_position (spec 4.4 setters). -/
def transform_set_position (t : transform_t) (position : vec3) : transform_t :=
  { t with _position := position, _dirty := true }

/-- Modelled from the spec: transform_set_scale (spec 4.4 setters). -/
def transform_set_scale (t : transform_t) (scale : vec3) : transform_t :=
  { t with _scale := scale, _dirty := true }

/-- Modelled from the spec: transform_set_rotation (spec 4.4 setters). -/
def transform_set_rotation (t : transform_t) (r : quat) : transform_t :=
  { t with _rotation := r, _dirty := true }

/-- Modelled from the spec: transform_lookat (spec 4.4: "sets rotation
via QuaternionAlgebra.lookAt(position, at), marks dirty"). quat_lookat is
declared at stereokit.h line 119 but its body is not in this tree and
spec 4.2 fixes no formula for it, so the orientation function is passed
as the parameter `qlook`. -/
def transform_lookat (qlook : vec3 → vec3 → quat) (t : transform_t)
    (tgt : vec3) : transform_t :=
  { t with _rotation := qlook t._position tgt, _dirty := true }

/-- Modelled from the spec: transform_update (spec 4.4: "if dirty,
recompute via trs(...) and clear dirty; otherwise return the cached value
unchanged"). -/
def transform_update (t : transform_t) : transform_t :=
  if t._dirty then
    { t with _transform := matrix_trs t._position t._rotation t._scale
             _dirty := false }
  else t

/-- Modelled from the spec: transform_matrix (spec 4.4 matrix accessor):
updates if dirty, then returns the cached matrix. -/
def transform_matrix (t : transform_t) : transform_t × matrix :=
  let t2 := transform_update t
  (t2, t2._transform)

/-- Modelled from the spec: transform_matrix_out (stereokit.h line 325),
the output-parameter variant of transform_matrix with the same
behaviour. -/
def transform_matrix_out (t : transform_t) : transform_t × matrix :=
  let t2 := transform_update t
  (t2, t2._transform)

/-- Modelled from the spec: transform_local_to_world (spec 4.4: transform
a point through the cached matrix, recomputing it first if dirty). -/
def transform_local_to_world (t : transform_t) (local_coordinate : vec3) :
    transform_t × vec3 :=
  let t2 := transform_update t
  (t2, matrix_mul_point t2._transform local_coordinate)

/-- Modelled from the spec: transform_world_to_local (spec 4.4: "force a
fresh recomputation of the matrix first if dirty, then invert"; the
inverse is recomputed per call, one of the freedoms of spec 9(c)). -/
def transform_world_to_local (t : transform_t) (world_coordinate : vec3) :
    transform_t × vec3 :=
  let t2 := transform_update t
  (t2, matrix_mul_point (matrix_inverse t2._transform) world_coordinate)

/-- Modelled from the spec: transform_local_to_world_dir (spec 4.4:
direction variants use transformDirection, ignoring translation). -/
def transform_local_to_world_dir (t : transform_t) (local_direction : vec3) :
    transform_t × vec3 :=
  let t2 := transform_update t
  (t2, matrix_mul_direction t2._transform local_direction)

/-- Modelled from the spec: transform_world_to_local_dir (spec 4.4
direction variant through the inverse matrix). -/
def transform_world_to_local_dir (t : transform_t) (world_direction : vec3) :
    transform_t × vec3 :=
  let t2 := transform_update t
  (t2, matrix_mul_direction (matrix_inverse t2._transform) world_direction)

/-- The transform_t states reachable from transform_initialize through
the mutating transform_* operations (the pure getters do not change the
state). `qlook` is the orientation function used by transform_lookat. -/
inductive transform_reachable (qlook : vec3 → vec3 → quat) : transform_t → Prop
  | init : transform_reachable qlook transform_initialize
  | set (t : transform_t) (p s : vec3) (r : quat) :
      transform_reachable qlook t →
      transform_reachable qlook (transform_set t p s r)
  | set_position (t : transform_t) (p : vec3) :
      transform_reachable qlook t →
      transform_reachable qlook (transform_set_position t p)
  | set_scale (t : transform_t) (s : vec3) :
      transform_reachable qlook t →
      transform_reachable qlook (transform_set_scale t s)
  | set_rotation (t : transform_t) (r : quat) :
      transform_reachable qlook t →
      transform_reachable qlook (transform_set_rotation t r)
  | lookat (t : transform_t) (tgt : vec3) :
      transform_reachable qlook t →
      transform_reachable qlook (transform_lookat qlook t tgt)
  | update (t : transform_t) :
      transform_reachable qlook t →
      transform_reachable qlook (transform_update t)
  | matrix_read (t : transform_t) :
      transform_reachable qlook t →
      transform_reachable qlook (transform_matrix t).1
  | matrix_out (t : transform_t) :
      transform_reachable qlook t →
      transform_reachable qlook (transform_matrix_out t).1
  | local_to_world (t : transform_t) (p : vec3) :
      transform_reachable qlook t →
      transform_reachable qlook (transform_local_to_world t p).1
  | world_to_local (t : transform_t) (p : vec3) :
      transform_reachable qlook t →
      transform_reachable qlook (transform_world_to_local t p).1
  | local_to_world_dir (t : transform_t) (p : vec3) :
      transform_reachable qlook t →
      transform_reachable qlook (transform_local_to_world_dir t p).1
  | world_to_local_dir (t : transform_t) (p : vec3) :
      transform_reachable qlook t →
      transform_reachable qlook (transform_world_to_local_dir t p).1

/- Model of src/StereoKitC/systems/defaults.cpp. The resource systems it
calls (tex2d_create, mesh_create, shader_create, material_create) are
outside this tree and are modelled as an environment of oracles returning
an optional handle (`none` = nullptr). defaults_init is embedded as a
function from that environment to its boolean result paired with the
trace of resource calls it performed, in source order. -/

/-- The outcome of each resource-creation call defaults_init can make:
an environment of pure oracles, `none` standing for nullptr. -/
structure defaults_env where
  tex2d_create : String → Option Nat
  mesh_create : String → Option Nat
  shader_create : String → String → Option Nat
  material_create : String → Option Nat → Option Nat

/-- Modelled from the spec: the built-in shader source strings of
shaders_builtin/shader_builtin.h (not in this tree); their contents are
opaque here, only their identity matters. -/
def sk_shader_builtin_default : String := "sk_shader_builtin_default"

/-- Opaque stand-in for the built-in PBR shader source. -/
def sk_shader_builtin_pbr : String := "sk_shader_builtin_pbr"

/-- Opaque stand-in for the built-in unlit shader source. -/
def sk_shader_builtin_unlit : String := "sk_shader_builtin_unlit"

/-- Opaque stand-in for the built-in font shader source. -/
def sk_shader_builtin_font : String := "sk_shader_builtin_font"

/-- One resource call performed by defaults_init (payloads that cannot
influence control flow, such as the color data, are elided). -/
inductive sk_action where
  | tex2d_create_call (id : String)
  | tex2d_set_colors (tex : Option Nat) (width height : Nat)
  | mesh_create_call (id : String)
  | mesh_set_verts (mesh : Option Nat) (vertex_count : Nat)
  | mesh_set_inds (mesh : Option Nat) (index_count : Nat)
  | shader_create_call (id : String)
  | material_create_call (id : String) (shader : Option Nat)
  | material_set_texture (material : Option Nat) (name : String) (tex : Option Nat)
deriving DecidableEq, Repr

/-- defaults_init (defaults.cpp lines 23-107): creates the five default
textures, the default quad mesh, the four default shaders and the default
material, returning false as soon as a checked creation returns nullptr;
the quad mesh creation is not checked. Returns the C function's boolean
result and the trace of resource calls made. -/
def defaults_init (env : defaults_env) : Bool × List sk_action :=
  -- Default white texture
  let sk_default_tex := env.tex2d_create "default/tex2d"
  let tr := [sk_action.tex2d_create_call "default/tex2d"]
  if sk_default_tex = none then (false, tr) else
  let tr := tr ++ [sk_action.tex2d_set_colors sk_default_tex 2 2]
  -- Default black texture
  let sk_default_tex_black := env.tex2d_create "default/tex2d_black"
  let tr := tr ++ [sk_action.tex2d_create_call "default/tex2d_black"]
  if sk_default_tex_black = none then (false, tr) else
  let tr := tr ++ [sk_action.tex2d_set_colors sk_default_tex_black 2 2]
  -- Default middle gray texture
  let sk_default_tex_gray := env.tex2d_create "default/tex2d_gray"
  let tr := tr ++ [sk_action.tex2d_create_call "default/tex2d_gray"]
  if sk_default_tex_gray = none then (false, tr) else
  let tr := tr ++ [sk_action.tex2d_set_colors sk_default_tex_gray 2 2]
  -- Default normal map
  let sk_default_tex_flat := env.tex2d_create "default/tex2d_flat"
  let tr := tr ++ [sk_action.tex2d_create_call "default/tex2d_flat"]
  if sk_default_tex_flat = none then (false, tr) else
  let tr := tr ++ [sk_action.tex2d_set_colors sk_default_tex_flat 2 2]
  -- Default metal/roughness map
  let sk_default_tex_rough := env.tex2d_create "default/tex2d_rough"
  let tr := tr ++ [sk_action.tex2d_create_call "default/tex2d_rough"]
  if sk_default_tex_rough = none then (false, tr) else
  let tr := tr ++ [sk_action.tex2d_set_colors sk_default_tex_rough 2 2]
  -- Default rendering quad: created and used with no null check
  let sk_default_quad := env.mesh_create "default/quad"
  let tr := tr ++ [sk_action.mesh_create_call "default/quad",
                   sk_action.mesh_set_verts sk_default_quad 4,
                   sk_action.mesh_set_inds sk_default_quad 6]
  -- Shaders
  let sk_default_shader := env.shader_create "default/shader" sk_shader_builtin_default
  let tr := tr ++ [sk_action.shader_create_call "default/shader"]
  if sk_default_shader = none then (false, tr) else
  let sk_default_shader_pbr := env.shader_create "default/shader_pbr" sk_shader_builtin_pbr
  let tr := tr ++ [sk_action.shader_create_call "default/shader_pbr"]
  if sk_default_shader_pbr = none then (false, tr) else
  let sk_default_shader_unlit := env.shader_create "default/shader_unlit" sk_shader_builtin_unlit
  let tr := tr ++ [sk_action.shader_create_call "default/shader_unlit"]
  if sk_default_shader_unlit = none then (false, tr) else
  let sk_default_shader_font := env.shader_create "default/shader_font" sk_shader_builtin_font
  let tr := tr ++ [sk_action.shader_create_call "default/shader_font"]
  if sk_default_shader_font = none then (false, tr) else
  let sk_default_material := env.material_create "default/material" sk_default_shader_pbr
  let tr := tr ++ [sk_action.material_create_call "default/material" sk_default_shader_pbr]
  if sk_default_material = none then (false, tr) else
  let tr := tr ++ [sk_action.material_set_texture sk_default_material "diffuse" sk_default_tex]
  (true, tr)

/-- A concrete environment in which every resource creation succeeds;
used to exercise defaults_init on a concrete run. -/
def defaults_env_all_ok : defaults_env :=
  { tex2d_create := fun _ => some 1
    mesh_create := fun _ => some 2
    shader_create := fun _ _ => some 3
    material_create := fun _ _ => some 4 }

/- Unfolding lemmas for the operator instances. -/

theorem vec2_hmul_def (a : vec2) (b : ℚ) : a * b = ⟨a.x * b, a.y * b⟩ := rfl

theorem vec2_hdiv_def (a : vec2) (b : ℚ) : a / b = ⟨a.x / b, a.y / b⟩ := rfl

theorem vec2_add_def (a b : vec2) : a + b = ⟨a.x + b.x, a.y + b.y⟩ := rfl

theorem vec2_sub_def (a b : vec2) : a - b = ⟨a.x - b.x, a.y - b.y⟩ := rfl

theorem vec2_mul_def (a b : vec2) : a * b = ⟨a.x * b.x, a.y * b.y⟩ := rfl

theorem vec2_div_def (a b : vec2) : a / b = ⟨a.x / b.x, a.y / b.y⟩ := rfl

theorem vec3_hmul_def (a : vec3) (b : ℚ) : a * b = ⟨a.x * b, a.y * b, a.z * b⟩ := rfl

theorem vec3_hdiv_def (a : vec3) (b : ℚ) : a / b = ⟨a.x / b, a.y / b, a.z / b⟩ := rfl

theorem vec3_add_def (a b : vec3) : a + b = ⟨a.x + b.x, a.y + b.y, a.z + b.z⟩ := rfl

theorem vec3_sub_def (a b : vec3) : a - b = ⟨a.x - b.x, a.y - b.y, a.z - b.z⟩ := rfl

theorem vec3_neg_def (a : vec3) : -a = ⟨-a.x, -a.y, -a.z⟩ := rfl

theorem vec3_mul_def (a b : vec3) : a * b = ⟨a.x * b.x, a.y * b.y, a.z * b.z⟩ := rfl

theorem vec3_div_def (a b : vec3) : a / b = ⟨a.x / b.x, a.y / b.y, a.z / b.z⟩ := rfl

/-- Claim C6: componentwise, pure vector arithmetic: each vec3 operator
(addition, subtraction, negation, scalar multiply/divide, componentwise
multiply/divide) and each vec2 operator (the same minus unary negation)
returns the vector of the corresponding componentwise results; operands
are values and are not modified. -/
theorem C6_componentwise_ops :
    ∀ (a b : vec3) (u v : vec2) (s : ℚ),
      a + b = ⟨a.x + b.x, a.y + b.y, a.z + b.z⟩ ∧
      a - b = ⟨a.x - b.x, a.y - b.y, a.z - b.z⟩ ∧
      -a = ⟨-a.x, -a.y, -a.z⟩ ∧
      a * s = ⟨a.x * s, a.y * s, a.z * s⟩ ∧
      a / s = ⟨a.x / s, a.y / s, a.z / s⟩ ∧
      a * b = ⟨a.x * b.x, a.y * b.y, a.z * b.z⟩ ∧
      a / b = ⟨a.x / b.x, a.y / b.y, a.z / b.z⟩ ∧
      u + v = ⟨u.x + v.x, u.y + v.y⟩ ∧
      u - v = ⟨u.x - v.x, u.y - v.y⟩ ∧
      u * s = ⟨u.x * s, u.y * s⟩ ∧
      u / s = ⟨u.x / s, u.y / s⟩ ∧
      u * v = ⟨u.x * v.x, u.y * v.y⟩ ∧
      u / v = ⟨u.x / v.x, u.y / v.y⟩ :=
  fun _ _ _ _ _ =>
    ⟨rfl, rfl, rfl, rfl, rfl, rfl, rfl, rfl, rfl, rfl, rfl, rfl, rfl⟩

/-- Claim C4: vector linear interpolation is a + (b-a)*t with t
unclamped, and is exact at the endpoints t = 0 and t = 1, for vec3 and
vec2. -/
theorem C4_lerp_endpoints :
    ∀ (a b : vec3) (u v : vec2) (t : ℚ),
      vec3_lerp a b t = a + (b - a) * t ∧
      vec3_lerp a b 0 = a ∧
      vec3_lerp a b 1 = b ∧
      vec2_lerp u v t = u + (v - u) * t ∧
      vec2_lerp u v 0 = u ∧
      vec2_lerp u v 1 = v := by
  intro a b u v t
  refine ⟨rfl, ?_, ?_, rfl, ?_, ?_⟩
  · cases a; cases b
    simp only [vec3_lerp, vec3_sub_def, vec3_hmul_def, vec3_add_def, vec3.mk.injEq]
    refine ⟨by ring, by ring, by ring⟩
  · cases a; cases b
    simp only [vec3_lerp, vec3_sub_def, vec3_hmul_def, vec3_add_def, vec3.mk.injEq]
    refine ⟨by ring, by ring, by ring⟩
  · cases u; cases v
    simp only [vec2_lerp, vec2_sub_def, vec2_hmul_def, vec2_add_def, vec2.mk.injEq]
    refine ⟨by ring, by ring⟩
  · cases u; cases v
    simp only [vec2_lerp, vec2_sub_def, vec2_hmul_def, vec2_add_def, vec2.mk.injEq]
    refine ⟨by ring, by ring⟩

/-- Claim C7: vec3_magnitude_sq is the sum of squared components and
vec3_magnitude is sqrtf of that same sum, so magnitude equals sqrtf of
the squared magnitude for every input (and every square-root function,
which is a parameter here). -/
theorem C7_magnitude_sq_agree :
    ∀ (sqrtf : ℚ → ℚ) (a : vec3),
      vec3_magnitude_sq a = a.x * a.x + a.y * a.y + a.z * a.z ∧
      vec3_magnitude sqrtf a = sqrtf (a.x * a.x + a.y * a.y + a.z * a.z) ∧
      vec3_magnitude sqrtf a = sqrtf (vec3_magnitude_sq a) :=
  fun _ _ => ⟨rfl, rfl, rfl⟩

/-- Claim C9: each compound-assignment operator (+=, -=, *=, /= for vec2
and vec3) leaves its left operand equal to the value of the corresponding
binary operator on the old operands; the in-place and value-returning
forms agree. -/
theorem C9_compound_assignment :
    ∀ (a b : vec3) (u v : vec2) (s : ℚ),
      vec3_add_assign a b = a + b ∧
      vec3_sub_assign a b = a - b ∧
      vec3_mul_assign a s = a * s ∧
      vec3_div_assign a s = a / s ∧
      vec2_add_assign u v = u + v ∧
      vec2_sub_assign u v = u - v ∧
      vec2_mul_assign u s = u * s ∧
      vec2_div_assign u s = u / s :=
  fun _ _ _ _ _ => ⟨rfl, rfl, rfl, rfl, rfl, rfl, rfl, rfl⟩

/-- Claim C8: the header's directional and identity conventions:
vec3_up = (0,1,0), vec3_forward = (0,0,-1), vec3_right = (1,0,0),
quat_identity = (0,0,0,1) with magnitude exactly 1, and matrix_identity
is the 4x4 identity. -/
theorem C8_direction_identity_conventions :
    vec3_up = ⟨0, 1, 0⟩ ∧
    vec3_forward = ⟨0, 0, -1⟩ ∧
    vec3_right = ⟨1, 0, 0⟩ ∧
    quat_identity = ⟨0, 0, 0, 1⟩ ∧
    quat_identity.i * quat_identity.i + quat_identity.j * quat_identity.j +
      quat_identity.k * quat_identity.k + quat_identity.a * quat_identity.a = 1 ∧
    (∀ sqrtf : ℚ → ℚ, sqrtf 1 = 1 →
      quat_magnitude sqrtf quat_identity = 1) ∧
    matrix_identity = ⟨⟨1, 0, 0, 0⟩, ⟨0, 1, 0, 0⟩, ⟨0, 0, 1, 0⟩, ⟨0, 0, 0, 1⟩⟩ := by
  refine ⟨rfl, rfl, rfl, rfl, by norm_num [quat_identity], ?_, rfl⟩
  intro sqrtf h
  simpa [quat_magnitude, quat_identity] using h

/-- Witness for C8: with the identity as a square-root function (which
does map 1 to 1), the identity quaternion has magnitude exactly 1. -/
theorem C8_direction_identity_conventions_witness :
    quat_magnitude (fun q => q) quat_identity = 1 :=
  C8_direction_identity_conventions.2.2.2.2.2.1 (fun q => q) rfl

/- Unfolding lemmas for fp arithmetic on finite operands. -/

theorem fp_num_add (a b : ℚ) : fp.num a + fp.num b = fp.num (a + b) := rfl

theorem fp_num_mul (a b : ℚ) : fp.num a * fp.num b = fp.num (a * b) := rfl

theorem fp_num_div (a b : ℚ) :
    fp.num a / fp.num b = if b = 0 then fp.nonfinite else fp.num (a / b) := rfl

/-- Claim C5: vec3_normalize has no zero-magnitude guard: it is an
unconditional componentwise division by vec3_magnitude of the input (for
every input, in particular every non-zero-magnitude one), and on the
zero vector — whose magnitude is sqrtf 0 = 0 — every component becomes a
division by zero, which in the float-tracking model is the silent
NaN/Inf class rather than a signalled error. -/
theorem C5_normalize_zero_unguarded :
    ∀ (sqrtfq : ℚ → ℚ) (sqrtff : fp → fp) (a : vec3) (af : vec3f),
      vec3_normalize sqrtfq a =
        ⟨a.x / vec3_magnitude sqrtfq a, a.y / vec3_magnitude sqrtfq a,
         a.z / vec3_magnitude sqrtfq a⟩ ∧
      vec3f_normalize sqrtff af = vec3f_div_scalar af (vec3f_magnitude sqrtff af) ∧
      (sqrtff (fp.num 0) = fp.num 0 →
        vec3f_normalize sqrtff ⟨fp.num 0, fp.num 0, fp.num 0⟩ =
          ⟨fp.nonfinite, fp.nonfinite, fp.nonfinite⟩) := by
  intro sqrtfq sqrtff a af
  refine ⟨rfl, rfl, ?_⟩
  intro h
  simp only [vec3f_normalize, vec3f_magnitude, fp_num_mul, fp_num_add]
  norm_num
  simp [h, vec3f_div_scalar, fp_num_div]

/-- Witness for C5: with a square-root function that maps the finite 0 to
the finite 0 (as IEEE sqrtf does), normalizing the zero vector yields
nonfinite components. -/
theorem C5_normalize_zero_unguarded_witness :
    vec3f_normalize (fun x => x) ⟨fp.num 0, fp.num 0, fp.num 0⟩ =
      ⟨fp.nonfinite, fp.nonfinite, fp.nonfinite⟩ :=
  (C5_normalize_zero_unguarded (fun q => q) (fun x => x)
    ⟨0, 0, 0⟩ ⟨fp.num 0, fp.num 0, fp.num 0⟩).2.2 rfl

/-- Claim C3: ray_intersect_plane fails exactly when the direction is
perpendicular to the plane normal (denominator zero, the exact reading of
the spec's approximate test); otherwise it succeeds — regardless of the
sign of t, so behind-origin hits are reported — with
t = dot(plane_pt - ray.pos, plane_normal) / dot(ray.dir, plane_normal),
and the resulting point ray.pos + ray.dir * t lies on the plane. -/
theorem C3_ray_plane_contract :
    ∀ (ray : ray_t) (plane_pt plane_normal : vec3),
      ((ray_intersect_plane ray plane_pt plane_normal).1 = false ↔
        vec3_dot ray.dir plane_normal = 0) ∧
      (vec3_dot ray.dir plane_normal ≠ 0 →
        (ray_intersect_plane ray plane_pt plane_normal).1 = true ∧
        (ray_intersect_plane ray plane_pt plane_normal).2 =
          vec3_dot (plane_pt - ray.pos) plane_normal /
            vec3_dot ray.dir plane_normal ∧
        vec3_dot
          ((ray.pos + ray.dir * (ray_intersect_plane ray plane_pt plane_normal).2)
            - plane_pt) plane_normal = 0) := by
  intro ray plane_pt plane_normal
  by_cases h : vec3_dot ray.dir plane_normal = 0
  · refine ⟨by simp [ray_intersect_plane, h], fun hc => absurd h hc⟩
  · refine ⟨by simp [ray_intersect_plane, h], fun _ => ?_⟩
    refine ⟨by simp [ray_intersect_plane, h], by simp [ray_intersect_plane, h], ?_⟩
    obtain ⟨⟨ox, oy, oz⟩, ⟨dx, dy, dz⟩⟩ := ray
    obtain ⟨qx, qy, qz⟩ := plane_pt
    obtain ⟨nx, ny, nz⟩ := plane_normal
    simp only [ray_intersect_plane, vec3_dot, vec3_sub_def, vec3_add_def,
      vec3_hmul_def] at h ⊢
    rw [if_neg h]
    field_simp
    ring

/-- Witness for C3: the spec's scenario, ray from (0,0,5) along (0,0,-1)
against the plane through the origin with normal (0,0,1): success, with
t as specified and the intersection point on the plane. -/
theorem C3_ray_plane_contract_witness :
    (ray_intersect_plane ⟨⟨0, 0, 5⟩, ⟨0, 0, -1⟩⟩ ⟨0, 0, 0⟩ ⟨0, 0, 1⟩).1 = true ∧
    (ray_intersect_plane ⟨⟨0, 0, 5⟩, ⟨0, 0, -1⟩⟩ ⟨0, 0, 0⟩ ⟨0, 0, 1⟩).2 =
      vec3_dot ((⟨0, 0, 0⟩ : vec3) - ⟨0, 0, 5⟩) ⟨0, 0, 1⟩ /
        vec3_dot ⟨0, 0, -1⟩ ⟨0, 0, 1⟩ ∧
    vec3_dot
      (((⟨0, 0, 5⟩ : vec3) +
          (⟨0, 0, -1⟩ : vec3) *
            (ray_intersect_plane ⟨⟨0, 0, 5⟩, ⟨0, 0, -1⟩⟩ ⟨0, 0, 0⟩ ⟨0, 0, 1⟩).2)
        - ⟨0, 0, 0⟩) ⟨0, 0, 1⟩ = 0 :=
  (C3_ray_plane_contract ⟨⟨0, 0, 5⟩, ⟨0, 0, -1⟩⟩ ⟨0, 0, 0⟩ ⟨0, 0, 1⟩).2
    (by norm_num [vec3_dot])

/-- After transform_update the dirty flag is clear, the fields are
unchanged, and — provided the incoming state satisfied the cache
invariant — the cached matrix is the TRS of the fields. -/
theorem transform_update_inv (t : transform_t)
    (ih : t._dirty = false →
      t._transform = matrix_trs t._position t._rotation t._scale) :
    (transform_update t)._dirty = false ∧
    (transform_update t)._position = t._position ∧
    (transform_update t)._scale = t._scale ∧
    (transform_update t)._rotation = t._rotation ∧
    (transform_update t)._transform = matrix_trs t._position t._rotation t._scale := by
  by_cases h : t._dirty
  · simp [transform_update, if_pos h]
  · have hd : t._dirty = false := by simpa using h
    simp [transform_update, if_neg h, hd, ih hd]

/-- The state after transform_update satisfies the cache invariant,
provided the incoming state did. -/
theorem transform_post_update_inv (t : transform_t)
    (ih : t._dirty = false →
      t._transform = matrix_trs t._position t._rotation t._scale) :
    (transform_update t)._dirty = false →
    (transform_update t)._transform =
      matrix_trs (transform_update t)._position (transform_update t)._rotation
        (transform_update t)._scale := by
  intro _
  obtain ⟨_, hp, hs, hr, ht⟩ := transform_update_inv t ih
  rw [ht, hp, hs, hr]

/-- The dirty-flag cache invariant holds in every reachable state: a
clear flag means the cached matrix is the TRS of the current fields. -/
theorem transform_reachable_inv (qlook : vec3 → vec3 → quat)
    (t : transform_t) (h : transform_reachable qlook t) :
    t._dirty = false → t._transform = matrix_trs t._position t._rotation t._scale := by
  induction h with
  | init => intro hd; simp [ transform_initialize] at hd
  | set t p s r _ _ => intro hd; simp [transform_set] at hd
  | set_position t p _ _ => intro hd; simp [transform_set_position] at hd
  | set_scale t s _ _ => intro hd; simp [transform_set_scale] at hd
  | set_rotation t r _ _ => intro hd; simp [transform_set_rotation] at hd
  | lookat t tgt _ _ => intro hd; simp [transform_lookat] at hd
  | update t _ ih => exact transform_post_update_inv t ih
  | matrix_read t _ ih => exact transform_post_update_inv t ih
  | matrix_out t _ ih => exact transform_post_update_inv t ih
  | local_to_world t p _ ih => exact transform_post_update_inv t ih
  | world_to_local t p _ ih => exact transform_post_update_inv t ih
  | local_to_world_dir t p _ ih => exact transform_post_update_inv t ih
  | world_to_local_dir t p _ ih => exact transform_post_update_inv t ih

/-- Claim C1: the dirty-flag cache invariant of transform_t: in every
state reachable from transform_initialize through the transform_*
operations, a clear dirty flag means the cached matrix equals the TRS of
the current fields; every setter sets the flag; every matrix-needing
accessor leaves the flag clear and yields the freshly consistent matrix
(never a stale one); and two consecutive matrix reads with no mutation in
between return identical values. -/
theorem C1_transform_cache_invariant :
    ∀ qlook : vec3 → vec3 → quat,
      (∀ t, transform_reachable qlook t → t._dirty = false →
        t._transform = matrix_trs t._position t._rotation t._scale) ∧
      (∀ t p s r, (transform_set t p s r)._dirty = true) ∧
      (∀ t p, (transform_set_position t p)._dirty = true) ∧
      (∀ t s, (transform_set_scale t s)._dirty = true) ∧
      (∀ t r, (transform_set_rotation t r)._dirty = true) ∧
      (∀ t tgt, (transform_lookat qlook t tgt)._dirty = true) ∧
      (∀ t, transform_reachable qlook t →
        (transform_update t)._dirty = false ∧
        (transform_update t)._transform =
          matrix_trs t._position t._rotation t._scale) ∧
      (∀ t, transform_reachable qlook t →
        (transform_matrix t).1._dirty = false ∧
        (transform_matrix t).2 = matrix_trs t._position t._rotation t._scale) ∧
      (∀ t, transform_reachable qlook t →
        (transform_matrix_out t).1._dirty = false ∧
        (transform_matrix_out t).2 = matrix_trs t._position t._rotation t._scale) ∧
      (∀ t p, transform_reachable qlook t →
        (transform_world_to_local t p).1._dirty = false ∧
        (transform_world_to_local t p).2 =
          matrix_mul_point
            (matrix_inverse (matrix_trs t._position t._rotation t._scale)) p) ∧
      (∀ t p, transform_reachable qlook t →
        (transform_local_to_world t p).1._dirty = false ∧
        (transform_local_to_world t p).2 =
          matrix_mul_point (matrix_trs t._position t._rotation t._scale) p) ∧
      (∀ t, (transform_matrix ((transform_matrix t).1)).2 = (transform_matrix t).2) := by
  intro qlook
  refine ⟨transform_reachable_inv qlook, fun _ _ _ _ => rfl, fun _ _ => rfl,
    fun _ _ => rfl, fun _ _ => rfl, fun _ _ => rfl, ?_, ?_, ?_, ?_, ?_, ?_⟩
  · intro t h
    obtain ⟨hd, _, _, _, ht⟩ :=
      transform_update_inv t (transform_reachable_inv qlook t h)
    exact ⟨hd, ht⟩
  · intro t h
    obtain ⟨hd, _, _, _, ht⟩ :=
      transform_update_inv t (transform_reachable_inv qlook t h)
    exact ⟨hd, ht⟩
  · intro t h
    obtain ⟨hd, _, _, _, ht⟩ :=
      transform_update_inv t (transform_reachable_inv qlook t h)
    exact ⟨hd, ht⟩
  · intro t p h
    obtain ⟨hd, _, _, _, ht⟩ :=
      transform_update_inv t (transform_reachable_inv qlook t h)
    refine ⟨hd, ?_⟩
    show matrix_mul_point (matrix_inverse (transform_update t)._transform) p = _
    rw [ht]
  · intro t p h
    obtain ⟨hd, _, _, _, ht⟩ :=
      transform_update_inv t (transform_reachable_inv qlook t h)
    refine ⟨hd, ?_⟩
    show matrix_mul_point (transform_update t)._transform p = _
    rw [ht]
  · intro t
    show (transform_update (transform_update t))._transform =
      (transform_update t)._transform
    by_cases h : t._dirty
    · simp [transform_update, h]
    · simp [transform_update, h]

/-- Witness for C1: in the concrete reachable state obtained by
initializing and then setting the position to (1,2,3), transform_update
clears the dirty flag and caches exactly the TRS of the fields. -/
theorem C1_transform_cache_invariant_witness :
    (transform_update (transform_set_position transform_initialize ⟨1, 2, 3⟩))._dirty
        = false ∧
    (transform_update (transform_set_position transform_initialize ⟨1, 2, 3⟩))._transform
        = matrix_trs (transform_set_position transform_initialize ⟨1, 2, 3⟩)._position
            (transform_set_position transform_initialize ⟨1, 2, 3⟩)._rotation
            (transform_set_position transform_initialize ⟨1, 2, 3⟩)._scale :=
  (C1_transform_cache_invariant (fun _ _ => quat_identity)).2.2.2.2.2.2.1
    (transform_set_position transform_initialize ⟨1, 2, 3⟩)
    (transform_reachable.set_position transform_initialize ⟨1, 2, 3⟩
      transform_reachable.init)

/-- matrix_mul_point on an affine matrix (w column 0,0,0,1): the
homogeneous w stays 1, so no perspective divide happens. -/
theorem matrix_mul_point_affine (a b c d e f g h i tx ty tz : ℚ) (p : vec3) :
    matrix_mul_point ⟨⟨a,b,c,0⟩,⟨d,e,f,0⟩,⟨g,h,i,0⟩,⟨tx,ty,tz,1⟩⟩ p =
      ⟨p.x*a + p.y*d + p.z*g + tx, p.x*b + p.y*e + p.z*h + ty,
       p.x*c + p.y*f + p.z*i + tz⟩ := by
  simp [matrix_mul_point]

/-- The determinant of an affine matrix is the determinant of its upper
3x3 block. -/
theorem det4_affine (a b c d e f g h i tx ty tz : ℚ) :
    det4 ⟨⟨a,b,c,0⟩,⟨d,e,f,0⟩,⟨g,h,i,0⟩,⟨tx,ty,tz,1⟩⟩ = det3 a b c d e f g h i := by
  simp only [det4, det3]
  ring

/-- The adjugate inverse of a non-singular affine matrix is again affine:
upper block the 3x3 adjugate over the determinant, last row the inverted
translation. -/
theorem matrix_inverse_affine (a b c d e f g h i tx ty tz : ℚ)
    (hD : det3 a b c d e f g h i ≠ 0) :
    matrix_inverse ⟨⟨a,b,c,0⟩,⟨d,e,f,0⟩,⟨g,h,i,0⟩,⟨tx,ty,tz,1⟩⟩ =
      ⟨⟨(e*i - f*h) / det3 a b c d e f g h i,
        -(b*i - c*h) / det3 a b c d e f g h i,
        (b*f - c*e) / det3 a b c d e f g h i, 0⟩,
       ⟨-(d*i - f*g) / det3 a b c d e f g h i,
        (a*i - c*g) / det3 a b c d e f g h i,
        -(a*f - c*d) / det3 a b c d e f g h i, 0⟩,
       ⟨(d*h - e*g) / det3 a b c d e f g h i,
        -(a*h - b*g) / det3 a b c d e f g h i,
        (a*e - b*d) / det3 a b c d e f g h i, 0⟩,
       ⟨-(det3 d e f g h i tx ty tz) / det3 a b c d e f g h i,
        (det3 a b c g h i tx ty tz) / det3 a b c d e f g h i,
        -(det3 a b c d e f tx ty tz) / det3 a b c d e f g h i, 1⟩⟩ := by
  simp only [matrix_inverse]
  rw [det4_affine]
  simp only [matrix.mk.injEq, vec4.mk.injEq]
  refine ⟨⟨?_, ?_, ?_, ?_⟩, ⟨?_, ?_, ?_, ?_⟩, ⟨?_, ?_, ?_, ?_⟩,
    ⟨?_, ?_, ?_, div_self hD⟩⟩
  all_goals simp only [det3]
  all_goals ring

/-- Transforming a point by a non-singular affine matrix and then by its
adjugate inverse gives the point back (Cramer identities for the 3x3
block plus cancellation of the translation row). -/
theorem matrix_affine_round (a b c d e f g h i tx ty tz : ℚ) (p : vec3)
    (hD : det3 a b c d e f g h i ≠ 0) :
    matrix_mul_point ⟨⟨a,b,c,0⟩,⟨d,e,f,0⟩,⟨g,h,i,0⟩,⟨tx,ty,tz,1⟩⟩
      (matrix_mul_point
        (matrix_inverse ⟨⟨a,b,c,0⟩,⟨d,e,f,0⟩,⟨g,h,i,0⟩,⟨tx,ty,tz,1⟩⟩) p) = p := by
  obtain ⟨px, py, pz⟩ := p
  rw [matrix_inverse_affine a b c d e f g h i tx ty tz hD]
  rw [matrix_mul_point_affine, matrix_mul_point_affine]
  have hD' : a * (e * i - f * h) - b * (d * i - f * g) + c * (d * h - e * g) ≠ 0 := by
    simpa [det3] using hD
  simp only [det3, vec3.mk.injEq]
  refine ⟨?_, ?_, ?_⟩
  all_goals field_simp
  all_goals ring

/-- The world→local→world round trip through a TRS matrix of non-zero
determinant is the identity on points. -/
theorem trs_roundtrip (pos : vec3) (r : quat) (s : vec3) (p : vec3)
    (hdet : det4 (matrix_trs pos r s) ≠ 0) :
    matrix_mul_point (matrix_trs pos r s)
      (matrix_mul_point (matrix_inverse (matrix_trs pos r s)) p) = p := by
  obtain ⟨sx, sy, sz⟩ := s
  obtain ⟨qi, qj, qk, qa⟩ := r
  obtain ⟨tx, ty, tz⟩ := pos
  simp only [matrix_trs] at hdet ⊢
  rw [det4_affine] at hdet
  exact matrix_affine_round _ _ _ _ _ _ _ _ _ _ _ _ p hdet

/-- transform_update is the identity on a state whose dirty flag is
already clear. -/
theorem transform_update_clean (t : transform_t) (hd : t._dirty = false) :
    transform_update t = t := by
  simp [transform_update, hd]

/-- Claim C2: round-trip law of the cached transform: for any state
whose cache is consistent (which every reachable state is, see C1) and
whose world TRS matrix is invertible, transform_local_to_world applied
to the output of transform_world_to_local returns the original point
exactly; and the same holds immediately after a mutation
(transform_set), the matrix and its inverse being freshly recomputed —
no stale inverse is used. -/
theorem C2_world_local_roundtrip :
    ∀ (t : transform_t) (p : vec3),
      ((t._dirty = false →
          t._transform = matrix_trs t._position t._rotation t._scale) →
        det4 (matrix_trs t._position t._rotation t._scale) ≠ 0 →
        (transform_local_to_world (transform_world_to_local t p).1
          (transform_world_to_local t p).2).2 = p) ∧
      (∀ (p2 s2 : vec3) (r2 : quat),
        det4 (matrix_trs p2 r2 s2) ≠ 0 →
        (transform_local_to_world
          (transform_world_to_local (transform_set t p2 s2 r2) p).1
          (transform_world_to_local (transform_set t p2 s2 r2) p).2).2 = p) := by
  intro t p
  constructor
  · intro hcache hdet
    obtain ⟨hd2, hp2, hs2, hr2, ht2⟩ := transform_update_inv t hcache
    have hupd2 : transform_update (transform_update t) = transform_update t :=
      transform_update_clean _ hd2
    show matrix_mul_point (transform_update (transform_update t))._transform
        (matrix_mul_point (matrix_inverse (transform_update t)._transform) p) = p
    rw [hupd2, ht2]
    exact trs_roundtrip _ _ _ p hdet
  · intro p2 s2 r2 hdet
    have hcache : (transform_set t p2 s2 r2)._dirty = false →
        (transform_set t p2 s2 r2)._transform =
          matrix_trs (transform_set t p2 s2 r2)._position
            (transform_set t p2 s2 r2)._rotation
            (transform_set t p2 s2 r2)._scale := by
      intro hc
      simp [transform_set] at hc
    obtain ⟨hd2, hp2, hs2, hr2, ht2⟩ := transform_update_inv _ hcache
    have hupd2 : transform_update (transform_update (transform_set t p2 s2 r2)) =
        transform_update (transform_set t p2 s2 r2) :=
      transform_update_clean _ hd2
    show matrix_mul_point
        (transform_update (transform_update (transform_set t p2 s2 r2)))._transform
        (matrix_mul_point
          (matrix_inverse
            (transform_update (transform_set t p2 s2 r2))._transform) p) = p
    rw [hupd2, ht2]
    exact trs_roundtrip _ _ _ p hdet

/-- Witness for C2: on the freshly initialized transform (identity pose,
determinant 1), world_to_local followed by local_to_world returns (1,2,3)
exactly. -/
theorem C2_world_local_roundtrip_witness :
    (transform_local_to_world
      (transform_world_to_local transform_initialize ⟨1, 2, 3⟩).1
      (transform_world_to_local transform_initialize ⟨1, 2, 3⟩).2).2 = ⟨1, 2, 3⟩ :=
  (C2_world_local_roundtrip transform_initialize ⟨1, 2, 3⟩).1
    (by intro h; simp [ transform_initialize] at h)
    (by norm_num [ transform_initialize, matrix_trs, det4, det3,
      vec3_zero, quat_identity, vec3_one])

set_option maxHeartbeats 1000000 in
/-- defaults_init succeeds exactly when all ten checked resource
creations (five textures, four shaders, one material) succeed; the quad
mesh creation does not appear, it is unchecked. -/
theorem defaults_init_success_iff (env : defaults_env) :
    (defaults_init env).1 = true ↔
      env.tex2d_create "default/tex2d" ≠ none ∧
      env.tex2d_create "default/tex2d_black" ≠ none ∧
      env.tex2d_create "default/tex2d_gray" ≠ none ∧
      env.tex2d_create "default/tex2d_flat" ≠ none ∧
      env.tex2d_create "default/tex2d_rough" ≠ none ∧
      env.shader_create "default/shader" sk_shader_builtin_default ≠ none ∧
      env.shader_create "default/shader_pbr" sk_shader_builtin_pbr ≠ none ∧
      env.shader_create "default/shader_unlit" sk_shader_builtin_unlit ≠ none ∧
      env.shader_create "default/shader_font" sk_shader_builtin_font ≠ none ∧
      env.material_create "default/material"
        (env.shader_create "default/shader_pbr" sk_shader_builtin_pbr) ≠ none := by
  simp only [defaults_init]
  by_cases h1 : env.tex2d_create "default/tex2d" = none
  · rw [if_pos h1]; simp [h1]
  · rw [if_neg h1]
    by_cases h2 : env.tex2d_create "default/tex2d_black" = none
    · rw [if_pos h2]; simp [h1, h2]
    · rw [if_neg h2]
      by_cases h3 : env.tex2d_create "default/tex2d_gray" = none
      · rw [if_pos h3]; simp [h1, h2, h3]
      · rw [if_neg h3]
        by_cases h4 : env.tex2d_create "default/tex2d_flat" = none
        · rw [if_pos h4]; simp [h1, h2, h3, h4]
        · rw [if_neg h4]
          by_cases h5 : env.tex2d_create "default/tex2d_rough" = none
          · rw [if_pos h5]; simp [h1, h2, h3, h4, h5]
          · rw [if_neg h5]
            by_cases h6 :
                env.shader_create "default/shader" sk_shader_builtin_default = none
            · rw [if_pos h6]; simp [h1, h2, h3, h4, h5, h6]
            · rw [if_neg h6]
              by_cases h7 :
                  env.shader_create "default/shader_pbr" sk_shader_builtin_pbr = none
              · rw [if_pos h7]; simp [h1, h2, h3, h4, h5, h6, h7]
              · rw [if_neg h7]
                by_cases h8 :
                    env.shader_create "default/shader_unlit" sk_shader_builtin_unlit
                      = none
                · rw [if_pos h8]; simp [h1, h2, h3, h4, h5, h6, h7, h8]
                · rw [if_neg h8]
                  by_cases h9 :
                      env.shader_create "default/shader_font" sk_shader_builtin_font
                        = none
                  · rw [if_pos h9]; simp [h1, h2, h3, h4, h5, h6, h7, h8, h9]
                  · rw [if_neg h9]
                    by_cases h10 : env.material_create "default/material"
                        (env.shader_create "default/shader_pbr" sk_shader_builtin_pbr)
                          = none
                    · rw [if_pos h10]
                      simp [h1, h2, h3, h4, h5, h6, h7, h8, h9, h10]
                    · rw [if_neg h10]
                      simp [h1, h2, h3, h4, h5, h6, h7, h8, h9, h10]

set_option maxHeartbeats 1000000 in
/-- Early return when the first texture creation fails. -/
theorem defaults_init_fail_tex1 (env : defaults_env)
    (h1 : env.tex2d_create "default/tex2d" = none) :
    defaults_init env = (false, [sk_action.tex2d_create_call "default/tex2d"]) := by
  simp only [defaults_init]
  rw [if_pos h1]

set_option maxHeartbeats 1000000 in
/-- Early return when the second texture creation fails. -/
theorem defaults_init_fail_tex2 (env : defaults_env)
    (h1 : env.tex2d_create "default/tex2d" ≠ none)
    (h2 : env.tex2d_create "default/tex2d_black" = none) :
    defaults_init env = (false,
      [sk_action.tex2d_create_call "default/tex2d",
       sk_action.tex2d_set_colors (env.tex2d_create "default/tex2d") 2 2,
       sk_action.tex2d_create_call "default/tex2d_black"]) := by
  simp only [defaults_init]
  rw [if_neg h1, if_pos h2]
  rfl

set_option maxHeartbeats 1000000 in
/-- Early return when the third texture creation fails. -/
theorem defaults_init_fail_tex3 (env : defaults_env)
    (h1 : env.tex2d_create "default/tex2d" ≠ none)
    (h2 : env.tex2d_create "default/tex2d_black" ≠ none)
    (h3 : env.tex2d_create "default/tex2d_gray" = none) :
    defaults_init env = (false,
      [sk_action.tex2d_create_call "default/tex2d",
       sk_action.tex2d_set_colors (env.tex2d_create "default/tex2d") 2 2,
       sk_action.tex2d_create_call "default/tex2d_black",
       sk_action.tex2d_set_colors (env.tex2d_create "default/tex2d_black") 2 2,
       sk_action.tex2d_create_call "default/tex2d_gray"]) := by
  simp only [defaults_init]
  rw [if_neg h1, if_neg h2, if_pos h3]
  rfl

set_option maxHeartbeats 1000000 in
/-- Early return when the fourth texture creation fails. -/
theorem defaults_init_fail_tex4 (env : defaults_env)
    (h1 : env.tex2d_create "default/tex2d" ≠ none)
    (h2 : env.tex2d_create "default/tex2d_black" ≠ none)
    (h3 : env.tex2d_create "default/tex2d_gray" ≠ none)
    (h4 : env.tex2d_create "default/tex2d_flat" = none) :
    defaults_init env = (false,
      [sk_action.tex2d_create_call "default/tex2d",
       sk_action.tex2d_set_colors (env.tex2d_create "default/tex2d") 2 2,
       sk_action.tex2d_create_call "default/tex2d_black",
       sk_action.tex2d_set_colors (env.tex2d_create "default/tex2d_black") 2 2,
       sk_action.tex2d_create_call "default/tex2d_gray",
       sk_action.tex2d_set_colors (env.tex2d_create "default/tex2d_gray") 2 2,
       sk_action.tex2d_create_call "default/tex2d_flat"]) := by
  simp only [defaults_init]
  rw [if_neg h1, if_neg h2, if_neg h3, if_pos h4]
  rfl

set_option maxHeartbeats 1000000 in
/-- Early return when the fifth texture creation fails. -/
theorem defaults_init_fail_tex5 (env : defaults_env)
    (h1 : env.tex2d_create "default/tex2d" ≠ none)
    (h2 : env.tex2d_create "default/tex2d_black" ≠ none)
    (h3 : env.tex2d_create "default/tex2d_gray" ≠ none)
    (h4 : env.tex2d_create "default/tex2d_flat" ≠ none)
    (h5 : env.tex2d_create "default/tex2d_rough" = none) :
    defaults_init env = (false,
      [sk_action.tex2d_create_call "default/tex2d",
       sk_action.tex2d_set_colors (env.tex2d_create "default/tex2d") 2 2,
       sk_action.tex2d_create_call "default/tex2d_black",
       sk_action.tex2d_set_colors (env.tex2d_create "default/tex2d_black") 2 2,
       sk_action.tex2d_create_call "default/tex2d_gray",
       sk_action.tex2d_set_colors (env.tex2d_create "default/tex2d_gray") 2 2,
       sk_action.tex2d_create_call "default/tex2d_flat",
       sk_action.tex2d_set_colors (env.tex2d_create "default/tex2d_flat") 2 2,
       sk_action.tex2d_create_call "default/tex2d_rough"]) := by
  simp only [defaults_init]
  rw [if_neg h1, if_neg h2, if_neg h3, if_neg h4, if_pos h5]
  rfl

set_option maxHeartbeats 1000000 in
/-- Early return when the first shader creation fails: the quad mesh was
already created and written — with no null check — before this point. -/
theorem defaults_init_fail_shader1 (env : defaults_env)
    (h1 : env.tex2d_create "default/tex2d" ≠ none)
    (h2 : env.tex2d_create "default/tex2d_black" ≠ none)
    (h3 : env.tex2d_create "default/tex2d_gray" ≠ none)
    (h4 : env.tex2d_create "default/tex2d_flat" ≠ none)
    (h5 : env.tex2d_create "default/tex2d_rough" ≠ none)
    (h6 : env.shader_create "default/shader" sk_shader_builtin_default = none) :
    defaults_init env = (false,
      [sk_action.tex2d_create_call "default/tex2d",
       sk_action.tex2d_set_colors (env.tex2d_create "default/tex2d") 2 2,
       sk_action.tex2d_create_call "default/tex2d_black",
       sk_action.tex2d_set_colors (env.tex2d_create "default/tex2d_black") 2 2,
       sk_action.tex2d_create_call "default/tex2d_gray",
       sk_action.tex2d_set_colors (env.tex2d_create "default/tex2d_gray") 2 2,
       sk_action.tex2d_create_call "default/tex2d_flat",
       sk_action.tex2d_set_colors (env.tex2d_create "default/tex2d_flat") 2 2,
       sk_action.tex2d_create_call "default/tex2d_rough",
       sk_action.tex2d_set_colors (env.tex2d_create "default/tex2d_rough") 2 2,
       sk_action.mesh_create_call "default/quad",
       sk_action.mesh_set_verts (env.mesh_create "default/quad") 4,
       sk_action.mesh_set_inds (env.mesh_create "default/quad") 6,
       sk_action.shader_create_call "default/shader"]) := by
  simp only [defaults_init]
  rw [if_neg h1, if_neg h2, if_neg h3, if_neg h4, if_neg h5, if_pos h6]
  rfl

set_option maxHeartbeats 1000000 in
/-- Early return when the PBR shader creation fails. -/
theorem defaults_init_fail_shader2 (env : defaults_env)
    (h1 : env.tex2d_create "default/tex2d" ≠ none)
    (h2 : env.tex2d_create "default/tex2d_black" ≠ none)
    (h3 : env.tex2d_create "default/tex2d_gray" ≠ none)
    (h4 : env.tex2d_create "default/tex2d_flat" ≠ none)
    (h5 : env.tex2d_create "default/tex2d_rough" ≠ none)
    (h6 : env.shader_create "default/shader" sk_shader_builtin_default ≠ none)
    (h7 : env.shader_create "default/shader_pbr" sk_shader_builtin_pbr = none) :
    defaults_init env = (false,
      [sk_action.tex2d_create_call "default/tex2d",
       sk_action.tex2d_set_colors (env.tex2d_create "default/tex2d") 2 2,
       sk_action.tex2d_create_call "default/tex2d_black",
       sk_action.tex2d_set_colors (env.tex2d_create "default/tex2d_black") 2 2,
       sk_action.tex2d_create_call "default/tex2d_gray",
       sk_action.tex2d_set_colors (env.tex2d_create "default/tex2d_gray") 2 2,
       sk_action.tex2d_create_call "default/tex2d_flat",
       sk_action.tex2d_set_colors (env.tex2d_create "default/tex2d_flat") 2 2,
       sk_action.tex2d_create_call "default/tex2d_rough",
       sk_action.tex2d_set_colors (env.tex2d_create "default/tex2d_rough") 2 2,
       sk_action.mesh_create_call "default/quad",
       sk_action.mesh_set_verts (env.mesh_create "default/quad") 4,
       sk_action.mesh_set_inds (env.mesh_create "default/quad") 6,
       sk_action.shader_create_call "default/shader",
       sk_action.shader_create_call "default/shader_pbr"]) := by
  simp only [defaults_init]
  rw [if_neg h1, if_neg h2, if_neg h3, if_neg h4, if_neg h5, if_neg h6, if_pos h7]
  rfl

set_option maxHeartbeats 1000000 in
/-- Early return when the unlit shader creation fails. -/
theorem defaults_init_fail_shader3 (env : defaults_env)
    (h1 : env.tex2d_create "default/tex2d" ≠ none)
    (h2 : env.tex2d_create "default/tex2d_black" ≠ none)
    (h3 : env.tex2d_create "default/tex2d_gray" ≠ none)
    (h4 : env.tex2d_create "default/tex2d_flat" ≠ none)
    (h5 : env.tex2d_create "default/tex2d_rough" ≠ none)
    (h6 : env.shader_create "default/shader" sk_shader_builtin_default ≠ none)
    (h7 : env.shader_create "default/shader_pbr" sk_shader_builtin_pbr ≠ none)
    (h8 : env.shader_create "default/shader_unlit" sk_shader_builtin_unlit = none) :
    defaults_init env = (false,
      [sk_action.tex2d_create_call "default/tex2d",
       sk_action.tex2d_set_colors (env.tex2d_create "default/tex2d") 2 2,
       sk_action.tex2d_create_call "default/tex2d_black",
       sk_action.tex2d_set_colors (env.tex2d_create "default/tex2d_black") 2 2,
       sk_action.tex2d_create_call "default/tex2d_gray",
       sk_action.tex2d_set_colors (env.tex2d_create "default/tex2d_gray") 2 2,
       sk_action.tex2d_create_call "default/tex2d_flat",
       sk_action.tex2d_set_colors (env.tex2d_create "default/tex2d_flat") 2 2,
       sk_action.tex2d_create_call "default/tex2d_rough",
       sk_action.tex2d_set_colors (env.tex2d_create "default/tex2d_rough") 2 2,
       sk_action.mesh_create_call "default/quad",
       sk_action.mesh_set_verts (env.mesh_create "default/quad") 4,
       sk_action.mesh_set_inds (env.mesh_create "default/quad") 6,
       sk_action.shader_create_call "default/shader",
       sk_action.shader_create_call "default/shader_pbr",
       sk_action.shader_create_call "default/shader_unlit"]) := by
  simp only [defaults_init]
  rw [if_neg h1, if_neg h2, if_neg h3, if_neg h4, if_neg h5, if_neg h6,
      if_neg h7, if_pos h8]
  rfl

set_option maxHeartbeats 1000000 in
/-- Early return when the font shader creation fails. -/
theorem defaults_init_fail_shader4 (env : defaults_env)
    (h1 : env.tex2d_create "default/tex2d" ≠ none)
    (h2 : env.tex2d_create "default/tex2d_black" ≠ none)
    (h3 : env.tex2d_create "default/tex2d_gray" ≠ none)
    (h4 : env.tex2d_create "default/tex2d_flat" ≠ none)
    (h5 : env.tex2d_create "default/tex2d_rough" ≠ none)
    (h6 : env.shader_create "default/shader" sk_shader_builtin_default ≠ none)
    (h7 : env.shader_create "default/shader_pbr" sk_shader_builtin_pbr ≠ none)
    (h8 : env.shader_create "default/shader_unlit" sk_shader_builtin_unlit ≠ none)
    (h9 : env.shader_create "default/shader_font" sk_shader_builtin_font = none) :
    defaults_init env = (false,
      [sk_action.tex2d_create_call "default/tex2d",
       sk_action.tex2d_set_colors (env.tex2d_create "default/tex2d") 2 2,
       sk_action.tex2d_create_call "default/tex2d_black",
       sk_action.tex2d_set_colors (env.tex2d_create "default/tex2d_black") 2 2,
       sk_action.tex2d_create_call "default/tex2d_gray",
       sk_action.tex2d_set_colors (env.tex2d_create "default/tex2d_gray") 2 2,
       sk_action.tex2d_create_call "default/tex2d_flat",
       sk_action.tex2d_set_colors (env.tex2d_create "default/tex2d_flat") 2 2,
       sk_action.tex2d_create_call "default/tex2d_rough",
       sk_action.tex2d_set_colors (env.tex2d_create "default/tex2d_rough") 2 2,
       sk_action.mesh_create_call "default/quad",
       sk_action.mesh_set_verts (env.mesh_create "default/quad") 4,
       sk_action.mesh_set_inds (env.mesh_create "default/quad") 6,
       sk_action.shader_create_call "default/shader",
       sk_action.shader_create_call "default/shader_pbr",
       sk_action.shader_create_call "default/shader_unlit",
       sk_action.shader_create_call "default/shader_font"]) := by
  simp only [defaults_init]
  rw [if_neg h1, if_neg h2, if_neg h3, if_neg h4, if_neg h5, if_neg h6,
      if_neg h7, if_neg h8, if_pos h9]
  rfl

set_option maxHeartbeats 1000000 in
/-- Early return when the material creation fails. -/
theorem defaults_init_fail_material (env : defaults_env)
    (h1 : env.tex2d_create "default/tex2d" ≠ none)
    (h2 : env.tex2d_create "default/tex2d_black" ≠ none)
    (h3 : env.tex2d_create "default/tex2d_gray" ≠ none)
    (h4 : env.tex2d_create "default/tex2d_flat" ≠ none)
    (h5 : env.tex2d_create "default/tex2d_rough" ≠ none)
    (h6 : env.shader_create "default/shader" sk_shader_builtin_default ≠ none)
    (h7 : env.shader_create "default/shader_pbr" sk_shader_builtin_pbr ≠ none)
    (h8 : env.shader_create "default/shader_unlit" sk_shader_builtin_unlit ≠ none)
    (h9 : env.shader_create "default/shader_font" sk_shader_builtin_font ≠ none)
    (h10 : env.material_create "default/material"
      (env.shader_create "default/shader_pbr" sk_shader_builtin_pbr) = none) :
    defaults_init env = (false,
      [sk_action.tex2d_create_call "default/tex2d",
       sk_action.tex2d_set_colors (env.tex2d_create "default/tex2d") 2 2,
       sk_action.tex2d_create_call "default/tex2d_black",
       sk_action.tex2d_set_colors (env.tex2d_create "default/tex2d_black") 2 2,
       sk_action.tex2d_create_call "default/tex2d_gray",
       sk_action.tex2d_set_colors (env.tex2d_create "default/tex2d_gray") 2 2,
       sk_action.tex2d_create_call "default/tex2d_flat",
       sk_action.tex2d_set_colors (env.tex2d_create "default/tex2d_flat") 2 2,
       sk_action.tex2d_create_call "default/tex2d_rough",
       sk_action.tex2d_set_colors (env.tex2d_create "default/tex2d_rough") 2 2,
       sk_action.mesh_create_call "default/quad",
       sk_action.mesh_set_verts (env.mesh_create "default/quad") 4,
       sk_action.mesh_set_inds (env.mesh_create "default/quad") 6,
       sk_action.shader_create_call "default/shader",
       sk_action.shader_create_call "default/shader_pbr",
       sk_action.shader_create_call "default/shader_unlit",
       sk_action.shader_create_call "default/shader_font",
       sk_action.material_create_call "default/material"
         (env.shader_create "default/shader_pbr" sk_shader_builtin_pbr)]) := by
  simp only [defaults_init]
  rw [if_neg h1, if_neg h2, if_neg h3, if_neg h4, if_neg h5, if_neg h6,
      if_neg h7, if_neg h8, if_neg h9, if_pos h10]
  rfl

set_option maxHeartbeats 1000000 in
/-- When every checked creation succeeds, defaults_init returns true
after performing the full sequence of calls, ending with the assignment
of the diffuse texture to the default material. -/
theorem defaults_init_success (env : defaults_env)
    (h1 : env.tex2d_create "default/tex2d" ≠ none)
    (h2 : env.tex2d_create "default/tex2d_black" ≠ none)
    (h3 : env.tex2d_create "default/tex2d_gray" ≠ none)
    (h4 : env.tex2d_create "default/tex2d_flat" ≠ none)
    (h5 : env.tex2d_create "default/tex2d_rough" ≠ none)
    (h6 : env.shader_create "default/shader" sk_shader_builtin_default ≠ none)
    (h7 : env.shader_create "default/shader_pbr" sk_shader_builtin_pbr ≠ none)
    (h8 : env.shader_create "default/shader_unlit" sk_shader_builtin_unlit ≠ none)
    (h9 : env.shader_create "default/shader_font" sk_shader_builtin_font ≠ none)
    (h10 : env.material_create "default/material"
      (env.shader_create "default/shader_pbr" sk_shader_builtin_pbr) ≠ none) :
    defaults_init env = (true,
      [sk_action.tex2d_create_call "default/tex2d",
       sk_action.tex2d_set_colors (env.tex2d_create "default/tex2d") 2 2,
       sk_action.tex2d_create_call "default/tex2d_black",
       sk_action.tex2d_set_colors (env.tex2d_create "default/tex2d_black") 2 2,
       sk_action.tex2d_create_call "default/tex2d_gray",
       sk_action.tex2d_set_colors (env.tex2d_create "default/tex2d_gray") 2 2,
       sk_action.tex2d_create_call "default/tex2d_flat",
       sk_action.tex2d_set_colors (env.tex2d_create "default/tex2d_flat") 2 2,
       sk_action.tex2d_create_call "default/tex2d_rough",
       sk_action.tex2d_set_colors (env.tex2d_create "default/tex2d_rough") 2 2,
       sk_action.mesh_create_call "default/quad",
       sk_action.mesh_set_verts (env.mesh_create "default/quad") 4,
       sk_action.mesh_set_inds (env.mesh_create "default/quad") 6,
       sk_action.shader_create_call "default/shader",
       sk_action.shader_create_call "default/shader_pbr",
       sk_action.shader_create_call "default/shader_unlit",
       sk_action.shader_create_call "default/shader_font",
       sk_action.material_create_call "default/material"
         (env.shader_create "default/shader_pbr" sk_shader_builtin_pbr),
       sk_action.material_set_texture
         (env.material_create "default/material"
           (env.shader_create "default/shader_pbr" sk_shader_builtin_pbr))
         "diffuse" (env.tex2d_create "default/tex2d")]) := by
  simp only [defaults_init]
  rw [if_neg h1, if_neg h2, if_neg h3, if_neg h4, if_neg h5, if_neg h6,
      if_neg h7, if_neg h8, if_neg h9, if_neg h10]
  rfl

set_option maxHeartbeats 1000000 in
/-- On a fully successful run, the trace contains mesh_set_verts and
mesh_set_inds applied to whatever mesh_create returned — there is no null
check between creation and use of the quad mesh. -/
theorem defaults_init_mesh_actions (env : defaults_env)
    (h1 : env.tex2d_create "default/tex2d" ≠ none)
    (h2 : env.tex2d_create "default/tex2d_black" ≠ none)
    (h3 : env.tex2d_create "default/tex2d_gray" ≠ none)
    (h4 : env.tex2d_create "default/tex2d_flat" ≠ none)
    (h5 : env.tex2d_create "default/tex2d_rough" ≠ none)
    (h6 : env.shader_create "default/shader" sk_shader_builtin_default ≠ none)
    (h7 : env.shader_create "default/shader_pbr" sk_shader_builtin_pbr ≠ none)
    (h8 : env.shader_create "default/shader_unlit" sk_shader_builtin_unlit ≠ none)
    (h9 : env.shader_create "default/shader_font" sk_shader_builtin_font ≠ none)
    (h10 : env.material_create "default/material"
      (env.shader_create "default/shader_pbr" sk_shader_builtin_pbr) ≠ none) :
    sk_action.mesh_set_verts (env.mesh_create "default/quad") 4
        ∈ (defaults_init env).2 ∧
    sk_action.mesh_set_inds (env.mesh_create "default/quad") 6
        ∈ (defaults_init env).2 := by
  rw [defaults_init_success env h1 h2 h3 h4 h5 h6 h7 h8 h9 h10]
  simp

/-- The boolean result of defaults_init does not depend on the outcome
of mesh_create at all: there is no null check on the quad mesh. -/
theorem defaults_init_mesh_no_check (env : defaults_env) (m : String → Option Nat) :
    (defaults_init { env with mesh_create := m }).1 = (defaults_init env).1 := by
  have h := (defaults_init_success_iff { env with mesh_create := m }).trans
    (defaults_init_success_iff env).symm
  cases hb1 : (defaults_init { env with mesh_create := m }).1 <;>
    cases hb2 : (defaults_init env).1
  · rfl
  · exact absurd (h.mpr hb2) (by simp [hb1])
  · exact absurd (h.mp hb1) (by simp [hb2])
  · rfl

/-- Claim C10: defaults_init fails fast: if any of the five texture
creations, four shader creations or the material creation returns null,
it returns false immediately, its call trace stopping at the failing
creation with none of the subsequent creation or assignment steps
performed; it returns true only when all ten succeed, after assigning
the diffuse texture; and the quad mesh creation result is used (set
verts/inds) without any null check, the boolean result being independent
of the mesh creation outcome. -/
theorem C10_defaults_init_failfast :
    ∀ env : defaults_env,
      ((defaults_init env).1 = true ↔
        env.tex2d_create "default/tex2d" ≠ none ∧
        env.tex2d_create "default/tex2d_black" ≠ none ∧
        env.tex2d_create "default/tex2d_gray" ≠ none ∧
        env.tex2d_create "default/tex2d_flat" ≠ none ∧
        env.tex2d_create "default/tex2d_rough" ≠ none ∧
        env.shader_create "default/shader" sk_shader_builtin_default ≠ none ∧
        env.shader_create "default/shader_pbr" sk_shader_builtin_pbr ≠ none ∧
        env.shader_create "default/shader_unlit" sk_shader_builtin_unlit ≠ none ∧
        env.shader_create "default/shader_font" sk_shader_builtin_font ≠ none ∧
        env.material_create "default/material"
          (env.shader_create "default/shader_pbr" sk_shader_builtin_pbr) ≠ none) ∧
      (env.tex2d_create "default/tex2d" = none →
        defaults_init env = (false, [sk_action.tex2d_create_call "default/tex2d"])) ∧
      (env.tex2d_create "default/tex2d" ≠ none →
        env.tex2d_create "default/tex2d_black" = none →
        defaults_init env = (false,
          [sk_action.tex2d_create_call "default/tex2d",
           sk_action.tex2d_set_colors (env.tex2d_create "default/tex2d") 2 2,
           sk_action.tex2d_create_call "default/tex2d_black"])) ∧
      (env.tex2d_create "default/tex2d" ≠ none →
        env.tex2d_create "default/tex2d_black" ≠ none →
        env.tex2d_create "default/tex2d_gray" = none →
        defaults_init env = (false,
          [sk_action.tex2d_create_call "default/tex2d",
           sk_action.tex2d_set_colors (env.tex2d_create "default/tex2d") 2 2,
           sk_action.tex2d_create_call "default/tex2d_black",
           sk_action.tex2d_set_colors (env.tex2d_create "default/tex2d_black") 2 2,
           sk_action.tex2d_create_call "default/tex2d_gray"])) ∧
      (env.tex2d_create "default/tex2d" ≠ none →
        env.tex2d_create "default/tex2d_black" ≠ none →
        env.tex2d_create "default/tex2d_gray" ≠ none →
        env.tex2d_create "default/tex2d_flat" = none →
        defaults_init env = (false,
          [sk_action.tex2d_create_call "default/tex2d",
           sk_action.tex2d_set_colors (env.tex2d_create "default/tex2d") 2 2,
           sk_action.tex2d_create_call "default/tex2d_black",
           sk_action.tex2d_set_colors (env.tex2d_create "default/tex2d_black") 2 2,
           sk_action.tex2d_create_call "default/tex2d_gray",
           sk_action.tex2d_set_colors (env.tex2d_create "default/tex2d_gray") 2 2,
           sk_action.tex2d_create_call "default/tex2d_flat"])) ∧
      (env.tex2d_create "default/tex2d" ≠ none →
        env.tex2d_create "default/tex2d_black" ≠ none →
        env.tex2d_create "default/tex2d_gray" ≠ none →
        env.tex2d_create "default/tex2d_flat" ≠ none →
        env.tex2d_create "default/tex2d_rough" = none →
        defaults_init env = (false,
          [sk_action.tex2d_create_call "default/tex2d",
           sk_action.tex2d_set_colors (env.tex2d_create "default/tex2d") 2 2,
           sk_action.tex2d_create_call "default/tex2d_black",
           sk_action.tex2d_set_colors (env.tex2d_create "default/tex2d_black") 2 2,
           sk_action.tex2d_create_call "default/tex2d_gray",
           sk_action.tex2d_set_colors (env.tex2d_create "default/tex2d_gray") 2 2,
           sk_action.tex2d_create_call "default/tex2d_flat",
           sk_action.tex2d_set_colors (env.tex2d_create "default/tex2d_flat") 2 2,
           sk_action.tex2d_create_call "default/tex2d_rough"])) ∧
      (env.tex2d_create "default/tex2d" ≠ none →
        env.tex2d_create "default/tex2d_black" ≠ none →
        env.tex2d_create "default/tex2d_gray" ≠ none →
        env.tex2d_create "default/tex2d_flat" ≠ none →
        env.tex2d_create "default/tex2d_rough" ≠ none →
        env.shader_create "default/shader" sk_shader_builtin_default = none →
        defaults_init env = (false,
          [sk_action.tex2d_create_call "default/tex2d",
           sk_action.tex2d_set_colors (env.tex2d_create "default/tex2d") 2 2,
           sk_action.tex2d_create_call "default/tex2d_black",
           sk_action.tex2d_set_colors (env.tex2d_create "default/tex2d_black") 2 2,
           sk_action.tex2d_create_call "default/tex2d_gray",
           sk_action.tex2d_set_colors (env.tex2d_create "default/tex2d_gray") 2 2,
           sk_action.tex2d_create_call "default/tex2d_flat",
           sk_action.tex2d_set_colors (env.tex2d_create "default/tex2d_flat") 2 2,
           sk_action.tex2d_create_call "default/tex2d_rough",
           sk_action.tex2d_set_colors (env.tex2d_create "default/tex2d_rough") 2 2,
           sk_action.mesh_create_call "default/quad",
           sk_action.mesh_set_verts (env.mesh_create "default/quad") 4,
           sk_action.mesh_set_inds (env.mesh_create "default/quad") 6,
           sk_action.shader_create_call "default/shader"])) ∧
      (env.tex2d_create "default/tex2d" ≠ none →
        env.tex2d_create "default/tex2d_black" ≠ none →
        env.tex2d_create "default/tex2d_gray" ≠ none →
        env.tex2d_create "default/tex2d_flat" ≠ none →
        env.tex2d_create "default/tex2d_rough" ≠ none →
        env.shader_create "default/shader" sk_shader_builtin_default ≠ none →
        env.shader_create "default/shader_pbr" sk_shader_builtin_pbr = none →
        defaults_init env = (false,
          [sk_action.tex2d_create_call "default/tex2d",
           sk_action.tex2d_set_colors (env.tex2d_create "default/tex2d") 2 2,
           sk_action.tex2d_create_call "default/tex2d_black",
           sk_action.tex2d_set_colors (env.tex2d_create "default/tex2d_black") 2 2,
           sk_action.tex2d_create_call "default/tex2d_gray",
           sk_action.tex2d_set_colors (env.tex2d_create "default/tex2d_gray") 2 2,
           sk_action.tex2d_create_call "default/tex2d_flat",
           sk_action.tex2d_set_colors (env.tex2d_create "default/tex2d_flat") 2 2,
           sk_action.tex2d_create_call "default/tex2d_rough",
           sk_action.tex2d_set_colors (env.tex2d_create "default/tex2d_rough") 2 2,
           sk_action.mesh_create_call "default/quad",
           sk_action.mesh_set_verts (env.mesh_create "default/quad") 4,
           sk_action.mesh_set_inds (env.mesh_create "default/quad") 6,
           sk_action.shader_create_call "default/shader",
           sk_action.shader_create_call "default/shader_pbr"])) ∧
      (env.tex2d_create "default/tex2d" ≠ none →
        env.tex2d_create "default/tex2d_black" ≠ none →
        env.tex2d_create "default/tex2d_gray" ≠ none →
        env.tex2d_create "default/tex2d_flat" ≠ none →
        env.tex2d_create "default/tex2d_rough" ≠ none →
        env.shader_create "default/shader" sk_shader_builtin_default ≠ none →
        env.shader_create "default/shader_pbr" sk_shader_builtin_pbr ≠ none →
        env.shader_create "default/shader_unlit" sk_shader_builtin_unlit = none →
        defaults_init env = (false,
          [sk_action.tex2d_create_call "default/tex2d",
           sk_action.tex2d_set_colors (env.tex2d_create "default/tex2d") 2 2,
           sk_action.tex2d_create_call "default/tex2d_black",
           sk_action.tex2d_set_colors (env.tex2d_create "default/tex2d_black") 2 2,
           sk_action.tex2d_create_call "default/tex2d_gray",
           sk_action.tex2d_set_colors (env.tex2d_create "default/tex2d_gray") 2 2,
           sk_action.tex2d_create_call "default/tex2d_flat",
           sk_action.tex2d_set_colors (env.tex2d_create "default/tex2d_flat") 2 2,
           sk_action.tex2d_create_call "default/tex2d_rough",
           sk_action.tex2d_set_colors (env.tex2d_create "default/tex2d_rough") 2 2,
           sk_action.mesh_create_call "default/quad",
           sk_action.mesh_set_verts (env.mesh_create "default/quad") 4,
           sk_action.mesh_set_inds (env.mesh_create "default/quad") 6,
           sk_action.shader_create_call "default/shader",
           sk_action.shader_create_call "default/shader_pbr",
           sk_action.shader_create_call "default/shader_unlit"])) ∧
      (env.tex2d_create "default/tex2d" ≠ none →
        env.tex2d_create "default/tex2d_black" ≠ none →
        env.tex2d_create "default/tex2d_gray" ≠ none →
        env.tex2d_create "default/tex2d_flat" ≠ none →
        env.tex2d_create "default/tex2d_rough" ≠ none →
        env.shader_create "default/shader" sk_shader_builtin_default ≠ none →
        env.shader_create "default/shader_pbr" sk_shader_builtin_pbr ≠ none →
        env.shader_create "default/shader_unlit" sk_shader_builtin_unlit ≠ none →
        env.shader_create "default/shader_font" sk_shader_builtin_font = none →
        defaults_init env = (false,
          [sk_action.tex2d_create_call "default/tex2d",
           sk_action.tex2d_set_colors (env.tex2d_create "default/tex2d") 2 2,
           sk_action.tex2d_create_call "default/tex2d_black",
           sk_action.tex2d_set_colors (env.tex2d_create "default/tex2d_black") 2 2,
           sk_action.tex2d_create_call "default/tex2d_gray",
           sk_action.tex2d_set_colors (env.tex2d_create "default/tex2d_gray") 2 2,
           sk_action.tex2d_create_call "default/tex2d_flat",
           sk_action.tex2d_set_colors (env.tex2d_create "default/tex2d_flat") 2 2,
           sk_action.tex2d_create_call "default/tex2d_rough",
           sk_action.tex2d_set_colors (env.tex2d_create "default/tex2d_rough") 2 2,
           sk_action.mesh_create_call "default/quad",
           sk_action.mesh_set_verts (env.mesh_create "default/quad") 4,
           sk_action.mesh_set_inds (env.mesh_create "default/quad") 6,
           sk_action.shader_create_call "default/shader",
           sk_action.shader_create_call "default/shader_pbr",
           sk_action.shader_create_call "default/shader_unlit",
           sk_action.shader_create_call "default/shader_font"])) ∧
      (env.tex2d_create "default/tex2d" ≠ none →
        env.tex2d_create "default/tex2d_black" ≠ none →
        env.tex2d_create "default/tex2d_gray" ≠ none →
        env.tex2d_create "default/tex2d_flat" ≠ none →
        env.tex2d_create "default/tex2d_rough" ≠ none →
        env.shader_create "default/shader" sk_shader_builtin_default ≠ none →
        env.shader_create "default/shader_pbr" sk_shader_builtin_pbr ≠ none →
        env.shader_create "default/shader_unlit" sk_shader_builtin_unlit ≠ none →
        env.shader_create "default/shader_font" sk_shader_builtin_font ≠ none →
        env.material_create "default/material"
          (env.shader_create "default/shader_pbr" sk_shader_builtin_pbr) = none →
        defaults_init env = (false,
          [sk_action.tex2d_create_call "default/tex2d",
           sk_action.tex2d_set_colors (env.tex2d_create "default/tex2d") 2 2,
           sk_action.tex2d_create_call "default/tex2d_black",
           sk_action.tex2d_set_colors (env.tex2d_create "default/tex2d_black") 2 2,
           sk_action.tex2d_create_call "default/tex2d_gray",
           sk_action.tex2d_set_colors (env.tex2d_create "default/tex2d_gray") 2 2,
           sk_action.tex2d_create_call "default/tex2d_flat",
           sk_action.tex2d_set_colors (env.tex2d_create "default/tex2d_flat") 2 2,
           sk_action.tex2d_create_call "default/tex2d_rough",
           sk_action.tex2d_set_colors (env.tex2d_create "default/tex2d_rough") 2 2,
           sk_action.mesh_create_call "default/quad",
           sk_action.mesh_set_verts (env.mesh_create "default/quad") 4,
           sk_action.mesh_set_inds (env.mesh_create "default/quad") 6,
           sk_action.shader_create_call "default/shader",
           sk_action.shader_create_call "default/shader_pbr",
           sk_action.shader_create_call "default/shader_unlit",
           sk_action.shader_create_call "default/shader_font",
           sk_action.material_create_call "default/material"
             (env.shader_create "default/shader_pbr" sk_shader_builtin_pbr)])) ∧
      (env.tex2d_create "default/tex2d" ≠ none →
        env.tex2d_create "default/tex2d_black" ≠ none →
        env.tex2d_create "default/tex2d_gray" ≠ none →
        env.tex2d_create "default/tex2d_flat" ≠ none →
        env.tex2d_create "default/tex2d_rough" ≠ none →
        env.shader_create "default/shader" sk_shader_builtin_default ≠ none →
        env.shader_create "default/shader_pbr" sk_shader_builtin_pbr ≠ none →
        env.shader_create "default/shader_unlit" sk_shader_builtin_unlit ≠ none →
        env.shader_create "default/shader_font" sk_shader_builtin_font ≠ none →
        env.material_create "default/material"
          (env.shader_create "default/shader_pbr" sk_shader_builtin_pbr) ≠ none →
        defaults_init env = (true,
          [sk_action.tex2d_create_call "default/tex2d",
           sk_action.tex2d_set_colors (env.tex2d_create "default/tex2d") 2 2,
           sk_action.tex2d_create_call "default/tex2d_black",
           sk_action.tex2d_set_colors (env.tex2d_create "default/tex2d_black") 2 2,
           sk_action.tex2d_create_call "default/tex2d_gray",
           sk_action.tex2d_set_colors (env.tex2d_create "default/tex2d_gray") 2 2,
           sk_action.tex2d_create_call "default/tex2d_flat",
           sk_action.tex2d_set_colors (env.tex2d_create "default/tex2d_flat") 2 2,
           sk_action.tex2d_create_call "default/tex2d_rough",
           sk_action.tex2d_set_colors (env.tex2d_create "default/tex2d_rough") 2 2,
           sk_action.mesh_create_call "default/quad",
           sk_action.mesh_set_verts (env.mesh_create "default/quad") 4,
           sk_action.mesh_set_inds (env.mesh_create "default/quad") 6,
           sk_action.shader_create_call "default/shader",
           sk_action.shader_create_call "default/shader_pbr",
           sk_action.shader_create_call "default/shader_unlit",
           sk_action.shader_create_call "default/shader_font",
           sk_action.material_create_call "default/material"
             (env.shader_create "default/shader_pbr" sk_shader_builtin_pbr),
           sk_action.material_set_texture
             (env.material_create "default/material"
               (env.shader_create "default/shader_pbr" sk_shader_builtin_pbr))
             "diffuse" (env.tex2d_create "default/tex2d")])) ∧
      (env.tex2d_create "default/tex2d" ≠ none →
        env.tex2d_create "default/tex2d_black" ≠ none →
        env.tex2d_create "default/tex2d_gray" ≠ none →
        env.tex2d_create "default/tex2d_flat" ≠ none →
        env.tex2d_create "default/tex2d_rough" ≠ none →
        env.shader_create "default/shader" sk_shader_builtin_default ≠ none →
        env.shader_create "default/shader_pbr" sk_shader_builtin_pbr ≠ none →
        env.shader_create "default/shader_unlit" sk_shader_builtin_unlit ≠ none →
        env.shader_create "default/shader_font" sk_shader_builtin_font ≠ none →
        env.material_create "default/material"
          (env.shader_create "default/shader_pbr" sk_shader_builtin_pbr) ≠ none →
        sk_action.mesh_set_verts (env.mesh_create "default/quad") 4
            ∈ (defaults_init env).2 ∧
        sk_action.mesh_set_inds (env.mesh_create "default/quad") 6
            ∈ (defaults_init env).2) ∧
      (∀ m : String → Option Nat,
        (defaults_init { env with mesh_create := m }).1 = (defaults_init env).1) :=
  fun env =>
    ⟨defaults_init_success_iff env,
     defaults_init_fail_tex1 env,
     defaults_init_fail_tex2 env,
     defaults_init_fail_tex3 env,
     defaults_init_fail_tex4 env,
     defaults_init_fail_tex5 env,
     defaults_init_fail_shader1 env,
     defaults_init_fail_shader2 env,
     defaults_init_fail_shader3 env,
     defaults_init_fail_shader4 env,
     defaults_init_fail_material env,
     defaults_init_success env,
     defaults_init_mesh_actions env,
     defaults_init_mesh_no_check env⟩

/-- Witness for C10: in the environment where every creation succeeds,
defaults_init returns true with the complete call trace, ending with the
diffuse-texture assignment. -/
theorem C10_defaults_init_failfast_witness :
    defaults_init defaults_env_all_ok = (true,
      [sk_action.tex2d_create_call "default/tex2d",
       sk_action.tex2d_set_colors
         (defaults_env_all_ok.tex2d_create "default/tex2d") 2 2,
       sk_action.tex2d_create_call "default/tex2d_black",
       sk_action.tex2d_set_colors
         (defaults_env_all_ok.tex2d_create "default/tex2d_black") 2 2,
       sk_action.tex2d_create_call "default/tex2d_gray",
       sk_action.tex2d_set_colors
         (defaults_env_all_ok.tex2d_create "default/tex2d_gray") 2 2,
       sk_action.tex2d_create_call "default/tex2d_flat",
       sk_action.tex2d_set_colors
         (defaults_env_all_ok.tex2d_create "default/tex2d_flat") 2 2,
       sk_action.tex2d_create_call "default/tex2d_rough",
       sk_action.tex2d_set_colors
         (defaults_env_all_ok.tex2d_create "default/tex2d_rough") 2 2,
       sk_action.mesh_create_call "default/quad",
       sk_action.mesh_set_verts
         (defaults_env_all_ok.mesh_create "default/quad") 4,
       sk_action.mesh_set_inds
         (defaults_env_all_ok.mesh_create "default/quad") 6,
       sk_action.shader_create_call "default/shader",
       sk_action.shader_create_call "default/shader_pbr",
       sk_action.shader_create_call "default/shader_unlit",
       sk_action.shader_create_call "default/shader_font",
       sk_action.material_create_call "default/material"
         (defaults_env_all_ok.shader_create "default/shader_pbr"
           sk_shader_builtin_pbr),
       sk_action.material_set_texture
         (defaults_env_all_ok.material_create "default/material"
           (defaults_env_all_ok.shader_create "default/shader_pbr"
             sk_shader_builtin_pbr))
         "diffuse" (defaults_env_all_ok.tex2d_create "default/tex2d")]) :=
  (C10_defaults_init_failfast defaults_env_all_ok).2.2.2.2.2.2.2.2.2.2.2.1
    (by decide) (by decide) (by decide) (by decide) (by decide)
    (by decide) (by decide) (by decide) (by decide) (by decide)

end SK
